import Mathlib

/-!
The chat-realtime server: realtime channel messaging engine.

A shallow embedding of the backend of the chat server
(`backend/server.js`, `backend/controllers/messagesController.js`,
`backend/models/*.js`) together with theorems about its behaviour.

Conventions of the embedding

* An `ObjectId` is a natural number.  A channel id sent by a client is an
  `Option Nat`: `none` stands for a string that Mongoose cannot cast to an
  `ObjectId` (the cast throws a `CastError`), `some c` for the canonical
  24-hex-digit form of the id `c` (which `xss` leaves unchanged).
* A `Date` is a natural number of milliseconds since the epoch.
* The MongoDB collections are lists of documents, in insertion order.
* Every awaited store operation of a handler may throw; which ones do is an
  explicit input of the handler (the `...Faults` structures).
* `Date.now()` and the fresh `_id` values chosen by the driver are explicit
  inputs of the handler (`Env`).
* The sanitiser `xss` (an external package) is a parameter of the handlers.
* A JavaScript string is a `String`; where the code indexes it (`slice`), the
  model goes through its UTF-16 code units.
* A promise rejection that nothing handles ends the server process.
-/

namespace ChatRealtime

/-! ## Data model (`backend/models`) -/

/-- Document of the `channels` collection (`models/Channel.js`), restricted to
the fields the handlers read or write. -/
structure Channel where
  _id : Nat
  name : String
  members : List Nat
  lastMessageAt : Option Nat
deriving DecidableEq, Repr

/-- Document of the `users` collection (`models/User.js`). -/
structure User where
  _id : Nat
  name : String
  channels : List Nat
deriving DecidableEq, Repr

/-- Document of the `messages` collection (`models/Message.js`). -/
structure Message where
  _id : Nat
  channel : Nat
  sender : Nat
  content : String
  type : String
  createdAt : Nat
  edited : Bool
deriving DecidableEq, Repr

/-- Value of the `payload` field of an activity record.  The snippet of a
message is a JavaScript string given by its UTF-16 code units: a slice may end
in the middle of a surrogate pair. -/
inductive Payload where
  | text (message : String)
  | snippet (messageId : Nat) (snippet : List Nat)
deriving DecidableEq, Repr

/-- Document of the `activities` collection (`models/Activity.js`). -/
structure Activity where
  _id : Nat
  user : Nat
  channel : Option Nat
  type : String
  payload : Payload
  createdAt : Nat
deriving DecidableEq, Repr

/-- Persistent state: the four MongoDB collections. -/
structure Store where
  channels : List Channel
  users : List User
  messages : List Message
  activities : List Activity
deriving DecidableEq, Repr

/-- Server state: the persistent store and the Socket.IO room registry, a list
of pairs (socket id, channel id) meaning that the socket is in the room
`channel_<id>`. -/
structure ServerState where
  db : Store
  rooms : List (Nat × Nat)
deriving DecidableEq, Repr

/-- Connection after a successful handshake: `socket.id` and the verified
token payload `socket.user`. -/
structure Socket where
  id : Nat
  userId : Nat
  userName : String
deriving DecidableEq, Repr

/-- Payload of the `newMessage` event. -/
structure NewMessage where
  id : Nat
  channel : Nat
  senderId : Nat
  senderName : String
  content : String
  type : String
  createdAt : Nat
deriving DecidableEq, Repr

/-- Events the server sends: `socket.emit('error', ...)` to one socket, and
the `io.to(room).emit(...)` broadcasts.  `userLeftUndefined` is the `user_left`
sent to the room `channel_undefined`, with an undefined `channelId`, when a
`leaveChannel` payload has no `channelId`. -/
inductive Emit where
  | error (socketId : Nat) (message : String)
  | userJoined (room : Nat) (channelId : Nat) (userId : Nat) (name : String)
  | userLeft (room : Nat) (channelId : Nat) (userId : Nat) (name : String)
  | newMessage (room : Nat) (message : NewMessage)
  | userLeftUndefined (userId : Nat) (name : String)
deriving DecidableEq, Repr

/-- Recognises an `error` notification. -/
def Emit.isError : Emit → Bool
  | .error _ _ => true
  | _ => false

/-- Recognises a `newMessage` broadcast. -/
def Emit.isNewMessage : Emit → Bool
  | .newMessage _ _ => true
  | _ => false

/-- Recognises a `user_joined` or `user_left` broadcast. -/
def Emit.isMembershipBroadcast : Emit → Bool
  | .userJoined _ _ _ _ => true
  | .userLeft _ _ _ _ => true
  | .userLeftUndefined _ _ => true
  | _ => false

/-- Values chosen by the environment during one handler run: the clock and
the fresh ids at the creation of the message and of the activity record. -/
structure Env where
  messageId : Nat
  messageNow : Nat
  activityId : Nat
  activityNow : Nat
deriving DecidableEq, Repr

/-! ## Store operations (Mongoose) -/

/-- Model of `Channel.findById(id)` on an existing connection. -/
def findChannel (chs : List Channel) (id : Nat) : Option Channel :=
  match chs with
  | [] => none
  | c :: cs => if c._id = id then some c else findChannel cs id

/-- Update of the channel document whose `_id` is `id`
(`channel.save()`, `Channel.findByIdAndUpdate`); no document, no change. -/
def updateChannel (f : Channel → Channel) (id : Nat) : List Channel → List Channel
  | [] => []
  | c :: cs => if c._id = id then f c :: cs else c :: updateChannel f id cs

/-- Update of the user document whose `_id` is `id`
(`User.findByIdAndUpdate`); no document, no change. -/
def updateUser (f : User → User) (id : Nat) : List User → List User
  | [] => []
  | u :: us => if u._id = id then f u :: us else u :: updateUser f id us

/-- Operator `$addToSet` on an array field. -/
def addToSet (x : Nat) (xs : List Nat) : List Nat :=
  if x ∈ xs then xs else xs ++ [x]

/-- Operator `$pull` on an array field. -/
def pull (x : Nat) (xs : List Nat) : List Nat :=
  xs.filter (fun y => y ≠ x)

/-! ## JavaScript values -/

/-- A JavaScript number: `NaN`, the infinities, or a finite value (a double is
a rational; `-0` and `0` are both `0`, and both are falsy). -/
inductive JSNum where
  | nan
  | negInf
  | posInf
  | fin (q : ℚ)
deriving DecidableEq

/-- Truthiness of a number: everything but `NaN` and zero. -/
def JSNum.truthy : JSNum → Bool
  | .nan => false
  | .fin q => decide (q ≠ 0)
  | _ => true

/-- Operator `a || b` on numbers. -/
def JSNum.or (a b : JSNum) : JSNum :=
  if a.truthy then a else b

/-- Function `Math.min(a, b)`. -/
def JSNum.min : JSNum → JSNum → JSNum
  | .nan, _ => .nan
  | _, .nan => .nan
  | .negInf, _ => .negInf
  | _, .negInf => .negInf
  | .posInf, b => b
  | a, .posInf => a
  | .fin a, .fin b => if a ≤ b then .fin a else .fin b

/-- White space and line terminators removed by `String.prototype.trim`. -/
def isJsWhitespace (c : Char) : Bool :=
  let n := c.toNat
  n = 0x09 || n = 0x0A || n = 0x0B || n = 0x0C || n = 0x0D || n = 0x20 || n = 0xA0
    || n = 0x1680 || (0x2000 ≤ n && n ≤ 0x200A) || n = 0x2028 || n = 0x2029
    || n = 0x202F || n = 0x205F || n = 0x3000 || n = 0xFEFF

/-- Method `String.prototype.trim`. -/
def jsTrim (s : String) : String :=
  ⟨((s.data.dropWhile isJsWhitespace).reverse.dropWhile isJsWhitespace).reverse⟩

/-- UTF-16 code units of a character: one unit below `0x10000`, a surrogate
pair from there on. -/
def utf16Units (c : Char) : List Nat :=
  if c.toNat < 0x10000 then [c.toNat]
  else [0xD800 + (c.toNat - 0x10000) / 0x400, 0xDC00 + (c.toNat - 0x10000) % 0x400]

/-- UTF-16 code units of a string, the elements a JavaScript string is
indexed by. -/
def toUtf16 (s : String) : List Nat :=
  (s.data.map utf16Units).flatten

/-- Method `String.prototype.slice(0, n)`: the first `n` UTF-16 code units. -/
def jsSlice (n : Nat) (s : String) : List Nat :=
  (toUtf16 s).take n

/-! ## History reader (`controllers/messagesController.js`) -/

/-- Constant `MAX_LIMIT`. -/
def MAX_LIMIT : ℚ := 100

/-- Constant `DEFAULT_LIMIT`. -/
def DEFAULT_LIMIT : ℚ := 50

/-- Line `Math.min(MAX_LIMIT, Number(req.query.limit) || DEFAULT_LIMIT)` of
`getMessages`; the argument is the value of `Number(req.query.limit)`
(`NaN` when the parameter is absent or is not a numeric string). -/
def effectiveLimit (limit : JSNum) : JSNum :=
  JSNum.min (.fin MAX_LIMIT) (limit.or (.fin DEFAULT_LIMIT))

/-- Value of `req.query.before`: absent (or empty, which is falsy), a string
that `new Date` does not parse, or a string that it parses to a date. -/
inductive BeforeParam where
  | absent
  | invalid
  | valid (date : Nat)
deriving DecidableEq, Repr

/-- Filter `{ channel: channelId, createdAt: { $lt: date } }` built by
`getMessages`; the bound on `createdAt` is set for a valid date only. -/
def matchesQuery (channelId : Nat) (before : BeforeParam) (m : Message) : Bool :=
  decide (m.channel = channelId) &&
    (match before with
     | .valid date => decide (m.createdAt < date)
     | _ => true)

/-- Order of `.sort({ createdAt: -1 })`: `a` may come before `b`. -/
def newerFirst (a b : Message) : Prop := b.createdAt ≤ a.createdAt

instance : DecidableRel newerFirst :=
  fun a b => inferInstanceAs (Decidable (b.createdAt ≤ a.createdAt))

instance : IsTotal Message newerFirst := ⟨fun a b => Nat.le_total b.createdAt a.createdAt⟩

instance : IsTrans Message newerFirst :=
  ⟨fun _ _ _ hab hbc => Nat.le_trans hbc hab⟩

/-- Cursor method `.sort({ createdAt: -1 })`: newest first. -/
def sortByCreatedAtDesc (ms : List Message) : List Message :=
  ms.insertionSort newerFirst

/-- Cursor method `.limit(limit)` for a positive integer limit; `none` for any
other number, for which the source does not fix what the driver does. -/
def cursorLimit (limit : JSNum) (ms : List Message) : Option (List Message) :=
  match limit with
  | .fin q => if q.den = 1 ∧ 0 < q.num then some (ms.take q.num.toNat) else none
  | _ => none

/-- Message with its `sender` replaced by `populate('sender', 'name')`:
the `_id` and `name` of the user, or `null` when there is no such user. -/
structure PopulatedMessage where
  _id : Nat
  channel : Nat
  sender : Option (Nat × String)
  content : String
  type : String
  createdAt : Nat
  edited : Bool
deriving DecidableEq, Repr

/-- Model of `User.findById(id)`. -/
def findUser (us : List User) (id : Nat) : Option User :=
  match us with
  | [] => none
  | u :: rest => if u._id = id then some u else findUser rest id

/-- Cursor method `.populate('sender', 'name')` on one document. -/
def populate (users : List User) (m : Message) : PopulatedMessage :=
  { _id := m._id, channel := m.channel,
    sender := (findUser users m.sender).map (fun u => (u._id, u.name)),
    content := m.content, type := m.type, createdAt := m.createdAt, edited := m.edited }

/-- Response of `getMessages`: the JSON body `{ count, messages }`, or the
status 500 sent by `handleError`. -/
inductive GetResponse where
  | json (count : Nat) (messages : List PopulatedMessage)
  | serverError
deriving DecidableEq, Repr

/-- Handler `getMessages(req, res)`.  `findFails` says whether the query
throws; `channelId` is `req.params.id`, `limit` is `Number(req.query.limit)`
and `before` is `req.query.before`.  The result is `none` only where
`cursorLimit` is. -/
def getMessages (db : Store) (findFails : Bool) (channelId : Option Nat) (limit : JSNum)
    (before : BeforeParam) : Option GetResponse :=
  match channelId with
  | none => some .serverError
  | some c =>
    if findFails then some .serverError
    else
      match cursorLimit (effectiveLimit limit)
          (sortByCreatedAtDesc (db.messages.filter (matchesQuery c before))) with
      | none => none
      | some messages =>
        let messages := messages.map (populate db.users)
        some (.json messages.length messages.reverse)

/-- Store of the pagination example: ten messages of channel 7 created at
times 1 to 10 (inserted out of order) and one message of another channel. -/
def exampleMessage (c t : Nat) : Message :=
  { _id := 100 + t, channel := c, sender := 1, content := "m", type := "text",
    createdAt := t, edited := false }

/-- Store of the pagination example. -/
def exampleDb : Store :=
  { channels := [{ _id := 7, name := "general", members := [1], lastMessageAt := some 10 }],
    users := [{ _id := 1, name := "ann", channels := [7] }],
    messages := [exampleMessage 7 3, exampleMessage 7 1, exampleMessage 7 2,
      exampleMessage 7 10, exampleMessage 8 6, exampleMessage 7 4, exampleMessage 7 5,
      exampleMessage 7 6, exampleMessage 7 9, exampleMessage 7 8, exampleMessage 7 7],
    activities := [] }

/-- Handler `postMessage(req, res)` answers with the created message (201),
with 400 when the content is empty, or with 500 from `handleError`. -/
inductive PostResponse where
  | created (data : Message)
  | contentRequired
  | serverError
deriving DecidableEq, Repr

/-- Which awaited store operations of a run of `sendMessage` or `postMessage`
throw. -/
structure SendFaults where
  messageCreate : Bool
  channelUpdate : Bool
  activityCreate : Bool
deriving DecidableEq, Repr

/-- Utility `sanitizeText`: `xss(value.toString().trim())`, the value being
`''` when it is undefined. -/
def sanitizeText (xss : String → String) (value : Option String) : String :=
  xss (jsTrim (value.getD ""))

/-- Operator `value || 'text'` on an optional string: the empty string is
falsy. -/
def orText (value : Option String) : String :=
  match value with
  | none => "text"
  | some t => if t = "" then "text" else t

/-- Statement `Channel.findByIdAndUpdate(c, { lastMessageAt })` on the
`channels` collection. -/
def touchChannel (c : Nat) (createdAt : Nat) (chs : List Channel) : List Channel :=
  updateChannel (fun ch => { ch with lastMessageAt := some createdAt }) c chs

/-- Statement `Channel.findByIdAndUpdate(channelId, { lastMessageAt })`. -/
def setLastMessageAt (c : Nat) (createdAt : Nat) (db : Store) : Store :=
  { db with channels := touchChannel c createdAt db.channels }

/-- Handler `postMessage(req, res)`; `userId` is `req.user._id`, `channelId`
is `req.params.id`, `content` and `type` are the fields of `req.body`. -/
def postMessage (xss : String → String) (faults : SendFaults) (env : Env) (userId : Nat)
    (channelId : Option Nat) (content type : Option String) (db : Store) :
    Store × PostResponse :=
  let content := sanitizeText xss content
  let type := orText type
  if content = "" then (db, .contentRequired)
  else
    match channelId with
    | none => (db, .serverError)
    | some c =>
      if faults.messageCreate then (db, .serverError)
      else
        let message : Message :=
          { _id := env.messageId, channel := c, sender := userId, content := content,
            type := type, createdAt := env.messageNow, edited := false }
        let db1 := { db with messages := db.messages ++ [message] }
        if faults.channelUpdate then (db1, .serverError)
        else
          let db2 := setLastMessageAt c message.createdAt db1
          if faults.activityCreate then (db2, .serverError)
          else
            let activity : Activity :=
              { _id := env.activityId, user := userId, channel := some c, type := "message",
                payload := .snippet message._id (jsSlice 200 content),
                createdAt := env.activityNow }
            ({ db2 with activities := db2.activities ++ [activity] }, .created message)

/-! ## Realtime handlers (`server.js`) -/

/-- Payload of a `sendMessage` event; an absent `content` or `type` is
`none`. -/
structure SendEvent where
  channelId : Option Nat
  content : Option String
  type : Option String
deriving DecidableEq, Repr

/-- Which awaited store operations of a run of `joinChannel` or
`leaveChannel` throw. -/
structure MemberFaults where
  findById : Bool
  save : Bool
  userUpdate : Bool
  activityCreate : Bool
deriving DecidableEq, Repr

/-- Method `socket.join(room)`: rooms are sets of sockets. -/
def joinRoom (socketId c : Nat) (rooms : List (Nat × Nat)) : List (Nat × Nat) :=
  if (socketId, c) ∈ rooms then rooms else rooms ++ [(socketId, c)]

/-- Method `socket.leave(room)`. -/
def leaveRoom (socketId c : Nat) (rooms : List (Nat × Nat)) : List (Nat × Nat) :=
  rooms.filter (fun r => r ≠ (socketId, c))

/-- Method `channel.save()` after an assignment to `channel.members`: the
modified path is written to the document of the channel. -/
def setMembers (c : Nat) (members : List Nat) (db : Store) : Store :=
  { db with channels := updateChannel (fun ch => { ch with members := members }) c db.channels }

/-- Statement `User.findByIdAndUpdate(userId, { $addToSet | $pull: { channels } })`. -/
def updateUserChannels (f : List Nat → List Nat) (userId : Nat) (db : Store) : Store :=
  { db with users := updateUser (fun u => { u with channels := f u.channels }) userId db.users }

/-- Handler of the `joinChannel` event. -/
def joinChannel (faults : MemberFaults) (env : Env) (socket : Socket)
    (channelId : Option Nat) (s : ServerState) : ServerState × List Emit :=
  let failed := [Emit.error socket.id "Failed to join channel"]
  match channelId with
  | none => (s, failed)
  | some c =>
    if faults.findById then (s, failed)
    else
      match findChannel s.db.channels c with
      | none => (s, [Emit.error socket.id "Channel not found"])
      | some channel =>
        let saved : Option Store :=
          if channel.members.any (fun m => m = socket.userId) then some s.db
          else if faults.save then none
          else some (setMembers c (channel.members ++ [socket.userId]) s.db)
        match saved with
        | none => (s, failed)
        | some db1 =>
          if faults.userUpdate then ({ s with db := db1 }, failed)
          else
            let db2 := updateUserChannels (addToSet c) socket.userId db1
            let rooms := joinRoom socket.id c s.rooms
            if faults.activityCreate then ({ db := db2, rooms := rooms }, failed)
            else
              let activity : Activity :=
                { _id := env.activityId, user := socket.userId, channel := some c, type := "join",
                  payload := .text (socket.userName ++ " joined"),
                  createdAt := env.activityNow }
              ({ db := { db2 with activities := db2.activities ++ [activity] },
                 rooms := rooms },
               [Emit.userJoined c c socket.userId socket.userName])

/-- Handler of the `leaveChannel` event, for a payload whose `channelId` is a
string; `leaveChannelUndefined` is the run for a payload without it. -/
def leaveChannel (faults : MemberFaults) (env : Env) (socket : Socket)
    (channelId : Option Nat) (s : ServerState) : ServerState × List Emit :=
  let failed := [Emit.error socket.id "Failed to leave channel"]
  match channelId with
  | none => (s, failed)
  | some c =>
    if faults.findById then (s, failed)
    else
      let saved : Option Store :=
        match findChannel s.db.channels c with
        | none => some s.db
        | some channel =>
          if faults.save then none
          else some (setMembers c (channel.members.filter (fun m => m ≠ socket.userId)) s.db)
      match saved with
      | none => (s, failed)
      | some db1 =>
        if faults.userUpdate then ({ s with db := db1 }, failed)
        else
          let db2 := updateUserChannels (pull c) socket.userId db1
          let rooms := leaveRoom socket.id c s.rooms
          if faults.activityCreate then ({ db := db2, rooms := rooms }, failed)
          else
            let activity : Activity :=
              { _id := env.activityId, user := socket.userId, channel := some c, type := "leave",
                payload := .text (socket.userName ++ " left"),
                createdAt := env.activityNow }
            ({ db := { db2 with activities := db2.activities ++ [activity] },
               rooms := rooms },
             [Emit.userLeft c c socket.userId socket.userName])

/-- Handler of the `sendMessage` event. -/
def sendMessage (xss : String → String) (faults : SendFaults) (env : Env) (socket : Socket)
    (ev : SendEvent) (s : ServerState) : ServerState × List Emit :=
  let failed := [Emit.error socket.id "Failed to send message"]
  let content := xss (ev.content.getD "")
  let trimmed := jsTrim content
  let type := ev.type.getD "text"
  if trimmed = "" ∧ type = "text" then (s, [Emit.error socket.id "Empty message"])
  else
    match ev.channelId with
    | none => (s, failed)
    | some c =>
      if faults.messageCreate then (s, failed)
      else
        let message : Message :=
          { _id := env.messageId, channel := c, sender := socket.userId, content := trimmed,
            type := type, createdAt := env.messageNow, edited := false }
        let db1 := { s.db with messages := s.db.messages ++ [message] }
        if faults.channelUpdate then ({ s with db := db1 }, failed)
        else
          let db2 := setLastMessageAt c message.createdAt db1
          if faults.activityCreate then ({ s with db := db2 }, failed)
          else
            let activity : Activity :=
              { _id := env.activityId, user := socket.userId, channel := some c, type := "message",
                payload := .snippet message._id (jsSlice 200 trimmed),
                createdAt := env.activityNow }
            ({ s with db := { db2 with activities := db2.activities ++ [activity] } },
             [Emit.newMessage c
               { id := message._id, channel := c, senderId := socket.userId,
                 senderName := socket.userName, content := message.content,
                 type := message.type, createdAt := message.createdAt }])

/-- Durable members list of channel `c` as `Channel.findById` reads it. -/
def membersOf (db : Store) (c : Nat) : Option (List Nat) :=
  (findChannel db.channels c).map (fun ch => ch.members)

/-- Handler of the `disconnect` event: it only writes to the console.  By then
Socket.IO has removed the socket from every room. -/
def disconnect (socket : Socket) (s : ServerState) : ServerState × List Emit :=
  ({ s with rooms := s.rooms.filter (fun r => r.1 ≠ socket.id) }, [])

/-- Identity sanitiser used in examples (plain text has no markup). -/
def xssPlain (s : String) : String := s

/-- Example state: channel 7 with member 1, users 1 and 2, socket 11 of user 1
in the room of channel 7. -/
def exampleState : ServerState :=
  { db := { channels := [{ _id := 7, name := "general", members := [1], lastMessageAt := none }],
            users := [{ _id := 1, name := "ann", channels := [7] },
                      { _id := 2, name := "bob", channels := [] }],
            messages := [], activities := [] },
    rooms := [(11, 7)] }

/-- Example connection of user 1. -/
def annSocket : Socket := { id := 11, userId := 1, userName := "ann" }

/-- Example connection of user 2. -/
def bobSocket : Socket := { id := 12, userId := 2, userName := "bob" }

/-- Example environment values. -/
def exampleEnv : Env := { messageId := 500, messageNow := 1000, activityId := 900, activityNow := 1001 }

/-- Example run without store failures. -/
def noSendFaults : SendFaults :=
  { messageCreate := false, channelUpdate := false, activityCreate := false }

/-- Example run without store failures. -/
def noMemberFaults : MemberFaults :=
  { findById := false, save := false, userUpdate := false, activityCreate := false }

/-- Message document that a run of `sendMessage` creates for channel `c`. -/
def sentMessage (xss : String → String) (env : Env) (socket : Socket) (ev : SendEvent)
    (c : Nat) : Message :=
  { _id := env.messageId, channel := c, sender := socket.userId,
    content := jsTrim (xss (ev.content.getD "")), type := ev.type.getD "text",
    createdAt := env.messageNow, edited := false }

/-- Run in which only the creation of the activity record throws. -/
def activityFault : MemberFaults :=
  { findById := false, save := false, userUpdate := false, activityCreate := true }

/-- Example event: the text `hi` for channel 7. -/
def hiEvent : SendEvent := { channelId := some 7, content := some "hi", type := none }

/-- Message document that a run of `postMessage` creates for channel `c`. -/
def postedMessage (xss : String → String) (env : Env) (userId : Nat)
    (content type : Option String) (c : Nat) : Message :=
  { _id := env.messageId, channel := c, sender := userId, content := sanitizeText xss content,
    type := orText type, createdAt := env.messageNow, edited := false }

/-- One `sendMessage` event together with the connection it arrives on and the
environment of its run. -/
structure SendCall where
  faults : SendFaults
  env : Env
  socket : Socket
  ev : SendEvent
deriving DecidableEq, Repr

/-- Events `sendMessage` handled one after another; the emits are
accumulated in order. -/
def runSends (xss : String → String) : List SendCall → ServerState → ServerState × List Emit
  | [], s => (s, [])
  | call :: rest, s =>
    let r := sendMessage xss call.faults call.env call.socket call.ev s
    let r2 := runSends xss rest r.1
    (r2.1, r.2 ++ r2.2)

/-- One request `POST /api/channels/:id/messages` together with the
environment of its run. -/
structure PostCall where
  faults : SendFaults
  env : Env
  userId : Nat
  channelId : Option Nat
  content : Option String
  type : Option String
deriving DecidableEq, Repr

/-- Requests `postMessage` handled one after another; the responses are
accumulated in order. -/
def runPosts (xss : String → String) : List PostCall → Store → Store × List PostResponse
  | [], db => (db, [])
  | call :: rest, db =>
    let r := postMessage xss call.faults call.env call.userId call.channelId call.content
      call.type db
    let r2 := runPosts xss rest r.1
    (r2.1, r.2 :: r2.2)

/-- Recognises the response 201 of `postMessage`. -/
def PostResponse.isCreated : PostResponse → Bool
  | .created _ => true
  | _ => false

/-- Example sequence of `n` events `sendMessage` of user 1 to channel 7, the
`i`-th handled at time `1000 + i`. -/
def exampleCalls (n : Nat) : List SendCall :=
  (List.range n).map (fun i =>
    { faults := noSendFaults,
      env := { messageId := 500 + i, messageNow := 1000 + i, activityId := 900 + i,
               activityNow := 1000 + i },
      socket := annSocket, ev := hiEvent })

/-- Example requests `postMessage` of user 1 to channel 7. -/
def examplePosts : List PostCall :=
  [{ faults := noSendFaults, env := exampleEnv, userId := 1, channelId := some 7,
     content := some " hello ", type := none },
   { faults := noSendFaults,
     env := { messageId := 501, messageNow := 2000, activityId := 901, activityNow := 2001 },
     userId := 1, channelId := some 7, content := some "again", type := some "" }]

/-! ## Connection gateway (`server.js`) and channel creation -/

/-- Verified token payload `{ id, email, name }` that `jwt.verify` returns. -/
structure TokenPayload where
  id : Nat
  email : String
  name : String
deriving DecidableEq, Repr

/-- Middleware `io.use`: the error passed to `next`, or the payload assigned
to `socket.user`.  `verify` is `jwt.verify(token, JWT_SECRET)`, `none` when it
throws; an absent or empty token is falsy. -/
def authenticate (verify : String → Option TokenPayload) (token : Option String) :
    Except String TokenPayload :=
  match token with
  | none => .error "Authentication error"
  | some t =>
    if t = "" then .error "Authentication error"
    else
      match verify t with
      | none => .error "Authentication error"
      | some payload => .ok payload

/-- What the server does to a connecting socket: refuse the connection
(`next(new Error(message))`), `socket.emit('error', ...)`,
`socket.disconnect(true)`, `socket.emit('connected', ...)`; `processExit` is
the end of the server process on a promise rejection that nothing handles. -/
inductive ConnAction where
  | refuse (message : String)
  | error (socketId : Nat) (message : String)
  | disconnect (socketId : Nat)
  | connected (socketId : Nat) (user : TokenPayload)
  | processExit
deriving DecidableEq, Repr

/-- Server state together with the open connections whose event handlers are
registered, each with its `socket.user`. -/
structure World where
  server : ServerState
  conns : List Socket
deriving DecidableEq, Repr

/-- Loop `user.channels.forEach((chId) => socket.join(...))` of the connection
handler; `user` is the result of `User.findById`. -/
def autoJoin (socketId : Nat) (user : Option User) (rooms : List (Nat × Nat)) :
    List (Nat × Nat) :=
  match user with
  | none => rooms
  | some u => u.channels.foldl (fun rooms c => joinRoom socketId c rooms) rooms

/-- World after the end of the server process: the store persists, every
connection and every room is gone. -/
def afterExit (w : World) : World :=
  { server := { w.server with rooms := [] }, conns := [] }

/-- A new connection: the middleware `io.use`, then the handler of
`connection`.  `dbReady` is `mongoose.connection.readyState === 1`;
`userFindFails` says whether `User.findById` throws: the `await` is outside
any `try`, the rejection of the handler is not handled and the process
exits. -/
def connect (verify : String → Option TokenPayload) (token : Option String) (dbReady : Bool)
    (userFindFails : Bool) (socketId : Nat) (w : World) : World × List ConnAction :=
  match authenticate verify token with
  | .error message => (w, [.refuse message])
  | .ok user =>
    if !dbReady then
      (w, [.error socketId "Database not connected", .disconnect socketId])
    else if userFindFails then (afterExit w, [.processExit])
    else
      let rooms := autoJoin socketId (findUser w.server.db.users user.id) w.server.rooms
      ({ server := { w.server with rooms := rooms },
         conns := w.conns ++ [{ id := socketId, userId := user.id, userName := user.name }] },
       [.connected socketId user])

/-- Event received on an open connection, with the store failures of its
run.  The first three carry a payload object whose `channelId` is a string (a
`joinChannel` or `sendMessage` payload without `channelId` behaves as one with
a string that is not an `ObjectId`); `leaveChannelUndefined` is a
`leaveChannel` whose payload has no `channelId`; `noPayload` is one of the
three events emitted without a payload. -/
inductive ClientEvent where
  | joinChannel (faults : MemberFaults) (channelId : Option Nat)
  | leaveChannel (faults : MemberFaults) (channelId : Option Nat)
  | sendMessage (faults : SendFaults) (ev : SendEvent)
  | disconnect
  | leaveChannelUndefined (faults : MemberFaults)
  | noPayload
deriving DecidableEq, Repr

/-- Handler of `leaveChannel` for a payload without `channelId`:
`Channel.findById(undefined)` finds no channel, the `$pull` of `undefined`
removes nothing, no socket is in the room `channel_undefined`, and the
activity record has no `channel`. -/
def leaveChannelUndefined (faults : MemberFaults) (env : Env) (socket : Socket)
    (s : ServerState) : ServerState × List Emit :=
  let failed := [Emit.error socket.id "Failed to leave channel"]
  if faults.findById then (s, failed)
  else if faults.userUpdate then (s, failed)
  else if faults.activityCreate then (s, failed)
  else
    let activity : Activity :=
      { _id := env.activityId, user := socket.userId, channel := none, type := "leave",
        payload := .text (socket.userName ++ " left"), createdAt := env.activityNow }
    ({ s with db := { s.db with activities := s.db.activities ++ [activity] } },
     [Emit.userLeftUndefined socket.userId socket.userName])

/-- What a handler run ends with: the events it sent, or the end of the
server process. -/
inductive Outcome where
  | sent (emits : List Emit)
  | processExit
deriving DecidableEq, Repr

/-- Events sent during a handler run. -/
def Outcome.emits : Outcome → List Emit
  | .sent emits => emits
  | .processExit => []

/-- Routing of an event to the handler registered with `socket.on`; on
`disconnect` the connection is gone.  Without a payload the destructuring of
the parameter throws before the `try`, the rejection is not handled and the
process exits. -/
def dispatch (xss : String → String) (env : Env) (socket : Socket) (event : ClientEvent)
    (w : World) : World × Outcome :=
  match event with
  | .joinChannel faults channelId =>
    let r := joinChannel faults env socket channelId w.server
    ({ w with server := r.1 }, .sent r.2)
  | .leaveChannel faults channelId =>
    let r := leaveChannel faults env socket channelId w.server
    ({ w with server := r.1 }, .sent r.2)
  | .sendMessage faults ev =>
    let r := sendMessage xss faults env socket ev w.server
    ({ w with server := r.1 }, .sent r.2)
  | .disconnect =>
    let r := disconnect socket w.server
    ({ server := r.1, conns := w.conns.filter (fun conn => conn.id ≠ socket.id) }, .sent r.2)
  | .leaveChannelUndefined faults =>
    let r := leaveChannelUndefined faults env socket w.server
    ({ w with server := r.1 }, .sent r.2)
  | .noPayload => (afterExit w, .processExit)

/-- Which awaited store operations of a run of `createChannel` throw. -/
structure CreateFaults where
  findOne : Bool
  create : Bool
  userUpdate : Bool
deriving DecidableEq, Repr

/-- Response of `createChannel`: 201 with the channel, 400, 409 or 500. -/
inductive CreateResponse where
  | created (channel : Channel)
  | nameRequired
  | alreadyExists
  | serverError
deriving DecidableEq, Repr

/-- Handler `createChannel(req, res)` (`controllers/channelsController.js`);
`userId` is `req.user._id`, `newId` the `_id` chosen for the document.
`Channel.create` throws on an empty `name` (the path is required) and on an
`_id` already in the collection.  The fields `description` and `createdBy`,
which no handler reads, are not part of `Channel`. -/
def createChannel (xss : String → String) (faults : CreateFaults) (newId : Nat) (userId : Nat)
    (name : Option String) (db : Store) : Store × CreateResponse :=
  match name with
  | none => (db, .nameRequired)
  | some name =>
    if name = "" then (db, .nameRequired)
    else
      let cleanName := xss (jsTrim name)
      if faults.findOne then (db, .serverError)
      else if db.channels.any (fun ch => ch.name = cleanName) then (db, .alreadyExists)
      else if faults.create ∨ cleanName = "" ∨ (findChannel db.channels newId).isSome then
        (db, .serverError)
      else
        let channel : Channel :=
          { _id := newId, name := cleanName, members := [userId], lastMessageAt := none }
        let db1 := { db with channels := db.channels ++ [channel] }
        if faults.userUpdate then (db1, .serverError)
        else (updateUserChannels (addToSet channel._id) userId db1, .created channel)

/-- Statement `User.create({ name, email, password })` of `register`
(`controllers/authController.js`): the new document has the default empty
`channels`. -/
def createUser (newId : Nat) (name : String) (db : Store) : Store :=
  { db with users := db.users ++ [{ _id := newId, name := name, channels := [] }] }

/-- Store without any document. -/
def emptyStore : Store := { channels := [], users := [], messages := [], activities := [] }

/-- Identity `u` is in the durable members list of channel `c`. -/
def isMember (db : Store) (u c : Nat) : Prop :=
  ∃ ch, findChannel db.channels c = some ch ∧ u ∈ ch.members

/-- Channel `c` is in the `channels` list of the user document of `u`, the
list the connection handler reads. -/
def listsChannel (db : Store) (u c : Nat) : Prop :=
  ∃ usr, findUser db.users u = some usr ∧ c ∈ usr.channels

/-- Durable membership and `User.channels` agree: the channels list of the
user document of `u` contains `c` exactly when the members list of the channel
document of `c` contains `u`. -/
def MembershipConsistent (db : Store) : Prop :=
  ∀ u c : Nat, listsChannel db u c ↔ isMember db u c

/-- States reachable from the empty store by registrations and by
`createChannel`, `joinChannel` and `leaveChannel` runs that complete without
error, each performed by a registered identity (tokens are issued to
registered users only). -/
inductive Reachable (xss : String → String) : ServerState → Prop where
  | empty : Reachable xss { db := emptyStore, rooms := [] }
  | register (s : ServerState) (newId : Nat) (name : String) :
      Reachable xss s → findUser s.db.users newId = none →
      Reachable xss { s with db := createUser newId name s.db }
  | createChannel (s : ServerState) (faults : CreateFaults) (newId userId : Nat)
      (name : Option String) :
      Reachable xss s → (findUser s.db.users userId).isSome = true →
      (createChannel xss faults newId userId name s.db).2 ≠ .serverError →
      Reachable xss { s with db := (createChannel xss faults newId userId name s.db).1 }
  | joinChannel (s : ServerState) (faults : MemberFaults) (env : Env) (socket : Socket)
      (channelId : Option Nat) :
      Reachable xss s → (findUser s.db.users socket.userId).isSome = true →
      (∀ e ∈ (joinChannel faults env socket channelId s).2, e.isError = false) →
      Reachable xss (joinChannel faults env socket channelId s).1
  | leaveChannel (s : ServerState) (faults : MemberFaults) (env : Env) (socket : Socket)
      (channelId : Option Nat) :
      Reachable xss s → (findUser s.db.users socket.userId).isSome = true →
      (∀ e ∈ (leaveChannel faults env socket channelId s).2, e.isError = false) →
      Reachable xss (leaveChannel faults env socket channelId s).1

/-- Example token verification: one valid token, of user 1. -/
def exampleVerify (token : String) : Option TokenPayload :=
  if token = "ann-token" then some { id := 1, email := "ann@example.org", name := "ann" }
  else none

/-- Example world: the example state and no open connection. -/
def exampleWorld : World := { server := { exampleState with rooms := [] }, conns := [] }

/-- Activity record of type `message` that `sendMessage` and `postMessage`
create for a stored content. -/
def messageActivity (env : Env) (userId c : Nat) (content : String) : Activity :=
  { _id := env.activityId, user := userId, channel := some c, type := "message",
    payload := .snippet env.messageId (jsSlice 200 content), createdAt := env.activityNow }

/-- Run of `createChannel` without store failures. -/
def noCreateFaults : CreateFaults := { findOne := false, create := false, userUpdate := false }

/-- Example reachable state: user 1 registers and creates the channel 7. -/
def reachedState : ServerState :=
  { db := (createChannel xssPlain noCreateFaults 7 1 (some "general")
      (createUser 1 "ann" emptyStore)).1,
    rooms := [] }

/-- Channels lists only name channels of which the user is a durable member. -/
def ListsWithinMembership (db : Store) : Prop :=
  ∀ u c : Nat, listsChannel db u c → isMember db u c

/-- Every socket in the room of a channel is an open connection bound to a
durable member of the channel. -/
def RosterWithinMembership (w : World) : Prop :=
  ∀ socketId c : Nat, (socketId, c) ∈ w.server.rooms →
    ∃ conn ∈ w.conns, conn.id = socketId ∧ isMember w.server.db conn.userId c

/-- No two open connections are bound to the same identity. -/
def DistinctIdentities (w : World) : Prop :=
  ∀ a ∈ w.conns, ∀ b ∈ w.conns, a.userId = b.userId → a = b

/-- Worlds reachable from `w0` by handshakes of identities that have no open
connection and by events on open connections whose handler sends no
`error`. -/
inductive Serving (xss : String → String) (verify : String → Option TokenPayload)
    (w0 : World) : World → Prop where
  | start : Serving xss verify w0 w0
  | connect (w : World) (token : Option String) (payload : TokenPayload)
      (dbReady userFindFails : Bool) (socketId : Nat) :
      Serving xss verify w0 w → authenticate verify token = .ok payload →
      (∀ conn ∈ w.conns, conn.userId ≠ payload.id) →
      Serving xss verify w0 (connect verify token dbReady userFindFails socketId w).1
  | event (w : World) (env : Env) (socket : Socket) (event : ClientEvent) :
      Serving xss verify w0 w → socket ∈ w.conns →
      (∀ e ∈ (dispatch xss env socket event w).2.emits, e.isError = false) →
      Serving xss verify w0 (dispatch xss env socket event w).1

/-- Example world: user 1 opens the connections 11 and 13, then leaves channel
7 on connection 11. -/
def twoConnectionsWorld : World :=
  (dispatch xssPlain exampleEnv annSocket (.leaveChannel noMemberFaults (some 7))
    (connect exampleVerify (some "ann-token") true false 13
      (connect exampleVerify (some "ann-token") true false 11 exampleWorld).1).1).1

/-- World without documents and connections. -/
def emptyWorld : World := { server := { db := emptyStore, rooms := [] }, conns := [] }

/-! ## Theorems -/

/-! ### History reader -/

theorem cursorLimit_natCast (n : Nat) (hn : 1 ≤ n) (ms : List Message) :
    cursorLimit (.fin (n : ℚ)) ms = some (ms.take n) := by
  have h : 0 < n := hn
  simp [cursorLimit, h]

theorem sortByCreatedAtDesc_perm (ms : List Message) :
    (sortByCreatedAtDesc ms).Perm ms :=
  List.perm_insertionSort newerFirst ms

theorem sortByCreatedAtDesc_sorted (ms : List Message) :
    (sortByCreatedAtDesc ms).Pairwise newerFirst :=
  List.sorted_insertionSort newerFirst ms

theorem mem_filter_matchesQuery (ms : List Message) (c t : Nat) (m : Message) :
    m ∈ ms.filter (matchesQuery c (.valid t)) ↔ m ∈ ms ∧ m.channel = c ∧ m.createdAt < t := by
  simp [matchesQuery]

theorem mem_filter_matchesQuery_unbounded (ms : List Message) (c : Nat) (m : Message) :
    m ∈ ms.filter (matchesQuery c .absent) ↔ m ∈ ms ∧ m.channel = c := by
  simp [matchesQuery]

/-- Shape of the answer of `getMessages` for a positive integer effective
limit: the first `n` documents of the sorted query result, reversed. -/
theorem getMessages_eq (db : Store) (c : Nat) (limit : JSNum) (before : BeforeParam) (n : Nat)
    (hn : 1 ≤ n) (hlim : effectiveLimit limit = .fin (n : ℚ)) :
    getMessages db false (some c) limit before =
      some (.json
        (((sortByCreatedAtDesc (db.messages.filter (matchesQuery c before))).take n).reverse.length)
        ((((sortByCreatedAtDesc (db.messages.filter (matchesQuery c before))).take n).reverse).map
          (populate db.users))) := by
  simp [getMessages, hlim, cursorLimit_natCast n hn, List.map_reverse]

/-- With pairwise distinct `createdAt` in the channel, the sorted query
result is strictly decreasing in `createdAt`. -/
theorem sortByCreatedAtDesc_strict (ms : List Message) (c : Nat) (before : BeforeParam)
    (hdistinct : ((ms.filter (fun m => m.channel = c)).map (fun m => m.createdAt)).Nodup) :
    (sortByCreatedAtDesc (ms.filter (matchesQuery c before))).Pairwise
      (fun a b => b.createdAt < a.createdAt) := by
  have hinj := List.inj_on_of_nodup_map hdistinct
  have hsub : ∀ m, m ∈ sortByCreatedAtDesc (ms.filter (matchesQuery c before)) →
      m ∈ ms.filter (fun m => m.channel = c) := by
    intro m hm
    have hm1 := (sortByCreatedAtDesc_perm _).subset hm
    simp only [List.mem_filter, matchesQuery, Bool.and_eq_true, decide_eq_true_eq] at hm1 ⊢
    exact ⟨hm1.1, hm1.2.1⟩
  have hnodupQ : (ms.filter (matchesQuery c before)).Nodup := by
    have h1 : (ms.filter (fun m => m.channel = c)).Nodup := List.Nodup.of_map _ hdistinct
    have h2 : ms.filter (matchesQuery c before) =
        (ms.filter (fun m => m.channel = c)).filter (matchesQuery c before) := by
      rw [List.filter_filter]
      apply List.filter_congr
      intro m _
      simp only [matchesQuery, Bool.and_eq_true, decide_eq_true_eq]
      cases hb : decide (m.channel = c) <;> simp_all
    rw [h2]
    exact h1.filter _
  have hnodup : (sortByCreatedAtDesc (ms.filter (matchesQuery c before))).Nodup :=
    (sortByCreatedAtDesc_perm _).nodup_iff.mpr hnodupQ
  have hboth := (sortByCreatedAtDesc_sorted (ms.filter (matchesQuery c before))).and hnodup
  refine hboth.imp_of_mem ?_
  intro a b ha hb hab
  have hle : b.createdAt ≤ a.createdAt := hab.1
  have hne : b.createdAt ≠ a.createdAt := by
    intro heq
    exact hab.2 (hinj (hsub a ha) (hsub b hb) heq.symm)
  omega

/-- Claim C1: for a positive integer effective limit `n` and a valid `before`
date `t`, with pairwise distinct `createdAt` among the messages of the channel,
`getMessages` answers with a page that has `min n k` messages (`k` the number
of messages of the channel created strictly before `t`), is strictly ascending
in `createdAt`, consists of messages of the channel created before `t`, and
every such message left out is older than every message of the page; `count`
is the length of the page. -/
theorem getMessages_page (db : Store) (c : Nat) (limit : JSNum) (n t : Nat)
    (hn : 1 ≤ n) (hlim : effectiveLimit limit = .fin (n : ℚ))
    (hdistinct :
      ((db.messages.filter (fun m => m.channel = c)).map (fun m => m.createdAt)).Nodup) :
    ∃ page : List Message,
      getMessages db false (some c) limit (.valid t) =
        some (.json page.length (page.map (populate db.users))) ∧
      page.length =
        min n (db.messages.filter (fun m => m.channel = c ∧ m.createdAt < t)).length ∧
      page.Pairwise (fun a b => a.createdAt < b.createdAt) ∧
      (∀ m ∈ page, m ∈ db.messages ∧ m.channel = c ∧ m.createdAt < t) ∧
      (∀ m ∈ db.messages, m.channel = c → m.createdAt < t → m ∉ page →
        ∀ m' ∈ page, m.createdAt < m'.createdAt) := by
  have hstrict := sortByCreatedAtDesc_strict db.messages c (.valid t) hdistinct
  have hperm := sortByCreatedAtDesc_perm (db.messages.filter (matchesQuery c (.valid t)))
  refine ⟨((sortByCreatedAtDesc (db.messages.filter (matchesQuery c (.valid t)))).take n).reverse,
    getMessages_eq db c limit (.valid t) n hn hlim, ?_, ?_, ?_, ?_⟩
  · have hfilter : db.messages.filter (fun m => decide (m.channel = c ∧ m.createdAt < t)) =
        db.messages.filter (matchesQuery c (.valid t)) := by
      apply List.filter_congr
      intro m _
      simp [matchesQuery]
    rw [List.length_reverse, List.length_take, hperm.length_eq, hfilter]
  · rw [List.pairwise_reverse]
    exact hstrict.sublist (List.take_sublist _ _)
  · intro m hm
    rw [List.mem_reverse] at hm
    exact (mem_filter_matchesQuery db.messages c t m).mp
      (hperm.subset (List.mem_of_mem_take hm))
  · intro m hm hc ht hnot m' hm'
    rw [List.mem_reverse] at hnot hm'
    have hmS : m ∈ sortByCreatedAtDesc (db.messages.filter (matchesQuery c (.valid t))) :=
      hperm.symm.subset ((mem_filter_matchesQuery db.messages c t m).mpr ⟨hm, hc, ht⟩)
    rw [← List.take_append_drop n
      (sortByCreatedAtDesc (db.messages.filter (matchesQuery c (.valid t))))] at hmS hstrict
    rcases List.mem_append.mp hmS with h | h
    · exact absurd h hnot
    · exact (List.pairwise_append.mp hstrict).2.2 m' hm' m h

/-- Witness of C1 on the example store: channel 7, limit 3, before 8. -/
theorem getMessages_page_witness :
    (1 ≤ 3 ∧ effectiveLimit (.fin 3) = .fin ((3 : Nat) : ℚ) ∧
      ((exampleDb.messages.filter (fun m => m.channel = 7)).map
        (fun m => m.createdAt)).Nodup) ∧
    ∃ page : List Message,
      getMessages exampleDb false (some 7) (.fin 3) (.valid 8) =
        some (.json page.length (page.map (populate exampleDb.users))) ∧
      page.length =
        min 3 (exampleDb.messages.filter (fun m => m.channel = 7 ∧ m.createdAt < 8)).length ∧
      page.Pairwise (fun a b => a.createdAt < b.createdAt) ∧
      (∀ m ∈ page, m ∈ exampleDb.messages ∧ m.channel = 7 ∧ m.createdAt < 8) ∧
      (∀ m ∈ exampleDb.messages, m.channel = 7 → m.createdAt < 8 → m ∉ page →
        ∀ m' ∈ page, m.createdAt < m'.createdAt) :=
  ⟨⟨by decide, by decide, by decide⟩,
    getMessages_page exampleDb 7 (.fin 3) 3 8 (by decide) (by decide) (by decide)⟩

/-- Example of the specification: with messages created at 1 < 2 < ... < 10,
limit 3 and before 8, the page is the messages created at 5, 6, 7. -/
theorem getMessages_example :
    getMessages exampleDb false (some 7) (.fin 3) (.valid 8) =
      some (.json 3 ((List.map (exampleMessage 7) [5, 6, 7]).map (populate exampleDb.users))) := by
  decide

/-- Counterexample to C9: for the query values `-5` and `2.5` the effective
limit is `-5` and `2.5`, neither of which is an integer between 1 and 100. -/
theorem effectiveLimit_counterexample :
    effectiveLimit (.fin (-5)) = .fin (-5) ∧ effectiveLimit (.fin (5 / 2)) = .fin (5 / 2) ∧
    (¬ ∃ k : Nat, 1 ≤ k ∧ k ≤ 100 ∧ effectiveLimit (.fin (-5)) = .fin (k : ℚ)) ∧
    (¬ ∃ k : Nat, 1 ≤ k ∧ k ≤ 100 ∧ effectiveLimit (.fin (5 / 2)) = .fin (k : ℚ)) := by
  have h1 : effectiveLimit (.fin (-5)) = .fin (-5) := by
    simp [effectiveLimit, JSNum.or, JSNum.truthy, JSNum.min, MAX_LIMIT]
    norm_num
  have h2 : effectiveLimit (.fin (5 / 2)) = .fin (5 / 2) := by
    simp [effectiveLimit, JSNum.or, JSNum.truthy, JSNum.min, MAX_LIMIT]
    norm_num
  refine ⟨h1, h2, ?_, ?_⟩
  · rintro ⟨k, hk1, _, hk⟩
    rw [h1] at hk
    have hq : (-5 : ℚ) = (k : ℚ) := by injection hk
    have hpos : (0 : ℚ) ≤ (k : ℚ) := Nat.cast_nonneg k
    linarith
  · rintro ⟨k, _, _, hk⟩
    rw [h2] at hk
    have hq : (5 / 2 : ℚ) = (k : ℚ) := by injection hk
    have h5 : (5 : ℚ) = ((2 * k : ℕ) : ℚ) := by push_cast; linarith
    have h5n : (5 : ℕ) = 2 * k := by exact_mod_cast h5
    omega

/-- Claim C9 as amended: the effective limit is 50 when `Number(limit)` is
`NaN` or zero, 100 for `Infinity`, `-Infinity` for `-Infinity`, and
`min(100, limit)` for every other finite value, whatever its sign and whether
or not it is an integer; for a positive integer this is an integer between 1
and 100. -/
theorem effectiveLimit_spec (q : ℚ) (k : Nat) :
    effectiveLimit .nan = .fin 50 ∧
    effectiveLimit (.fin 0) = .fin 50 ∧
    effectiveLimit .posInf = .fin 100 ∧
    effectiveLimit .negInf = .negInf ∧
    effectiveLimit (.fin q) = (if q = 0 then .fin 50 else .fin (min 100 q)) ∧
    effectiveLimit (.fin ((k + 1 : Nat) : ℚ)) = .fin ((min 100 (k + 1) : Nat) : ℚ) ∧
    1 ≤ min 100 (k + 1) ∧ min 100 (k + 1) ≤ 100 := by
  have hq : ∀ q : ℚ,
      effectiveLimit (.fin q) = (if q = 0 then .fin 50 else .fin (min 100 q)) := by
    intro q
    by_cases h : q = 0
    · subst h
      simp [effectiveLimit, JSNum.or, JSNum.truthy, JSNum.min, MAX_LIMIT, DEFAULT_LIMIT]
      norm_num
    · simp only [effectiveLimit, JSNum.or, JSNum.truthy, JSNum.min, MAX_LIMIT, h, if_false,
        ne_eq, not_false_eq_true, decide_True, if_true]
      rw [min_def]
      split <;> rfl
  refine ⟨?_, ?_, ?_, ?_, hq q, ?_, by omega, by omega⟩
  · simp [effectiveLimit, JSNum.or, JSNum.truthy, JSNum.min, MAX_LIMIT, DEFAULT_LIMIT]
    norm_num
  · simp [effectiveLimit, JSNum.or, JSNum.truthy, JSNum.min, MAX_LIMIT, DEFAULT_LIMIT]
    norm_num
  · simp [effectiveLimit, JSNum.or, JSNum.truthy, JSNum.min, MAX_LIMIT]
  · simp [effectiveLimit, JSNum.or, JSNum.truthy, JSNum.min]
  · have hne : ((k + 1 : Nat) : ℚ) ≠ 0 := Nat.cast_ne_zero.mpr (Nat.succ_ne_zero k)
    rw [hq, if_neg hne, Nat.cast_min]
    norm_num

/-! ### Realtime handlers: validation and failures -/

/-- A string made of white space only (possibly empty) trims to the empty
string. -/
theorem jsTrim_blank (s : String) (h : s.data.all isJsWhitespace = true) : jsTrim s = "" := by
  have h1 : s.data.dropWhile isJsWhitespace = [] := by
    rw [List.dropWhile_eq_nil_iff]
    intro x hx
    exact List.all_eq_true.mp h x hx
  simp [jsTrim, h1]

/-- Claim C2: a `sendMessage` event of type text (given or by default) whose
content is absent, empty or white space only is answered with the single
notification `error 'Empty message'` to the sender, and the server state is
unchanged: no message, no `lastMessageAt` update, no activity record, no
broadcast.  The sanitiser is assumed to map white space to white space. -/
theorem sendMessage_empty (xss : String → String)
    (hxss : ∀ t : String, t.data.all isJsWhitespace = true →
      (xss t).data.all isJsWhitespace = true)
    (faults : SendFaults) (env : Env) (socket : Socket) (ev : SendEvent) (s : ServerState)
    (htype : ev.type = none ∨ ev.type = some "text")
    (hcontent : ∀ t, ev.content = some t → t.data.all isJsWhitespace = true) :
    sendMessage xss faults env socket ev s = (s, [Emit.error socket.id "Empty message"]) := by
  have hblank : (ev.content.getD "").data.all isJsWhitespace = true := by
    cases hc : ev.content with
    | none => rfl
    | some t => exact hcontent t hc
  have htrim : jsTrim (xss (ev.content.getD "")) = "" := jsTrim_blank _ (hxss _ hblank)
  have hty : ev.type.getD "text" = "text" := by
    rcases htype with h | h <;> simp [h]
  simp [sendMessage, htrim, hty]

/-- Witness of C2: three spaces sent with the default type. -/
theorem sendMessage_empty_witness :
    ((∀ t : String, t.data.all isJsWhitespace = true →
        (xssPlain t).data.all isJsWhitespace = true) ∧
      ((none : Option String) = none ∨ (none : Option String) = some "text") ∧
      (∀ t, some "   " = some t → t.data.all isJsWhitespace = true)) ∧
    sendMessage xssPlain noSendFaults exampleEnv annSocket
        { channelId := some 7, content := some "   ", type := none } exampleState =
      (exampleState, [Emit.error annSocket.id "Empty message"]) :=
  have h1 : ∀ t : String, t.data.all isJsWhitespace = true →
      (xssPlain t).data.all isJsWhitespace = true := fun _ h => h
  have h3 : ∀ t, some "   " = some t → t.data.all isJsWhitespace = true := by
    intro t ht
    cases ht
    decide
  ⟨⟨h1, Or.inl rfl, h3⟩,
    sendMessage_empty xssPlain h1 noSendFaults exampleEnv annSocket
      { channelId := some 7, content := some "   ", type := none } exampleState (Or.inl rfl) h3⟩

/-- Claim C10: the `disconnect` handler leaves the persistent store as it was
(no members list, no user's channels list, no message and no activity record
changes) and sends nothing. -/
theorem disconnect_store (socket : Socket) (s : ServerState) :
    (disconnect socket s).1.db = s.db ∧ (disconnect socket s).2 = [] :=
  ⟨rfl, rfl⟩

/-- A run of `sendMessage` that sends no `error` passed the validation, had a
castable channel id and met no store failure. -/
theorem sendMessage_of_no_error (xss : String → String) (faults : SendFaults) (env : Env)
    (socket : Socket) (ev : SendEvent) (s : ServerState)
    (hok : ∀ e ∈ (sendMessage xss faults env socket ev s).2, e.isError = false) :
    ¬ (jsTrim (xss (ev.content.getD "")) = "" ∧ ev.type.getD "text" = "text") ∧
    faults = noSendFaults ∧ ∃ c, ev.channelId = some c := by
  unfold sendMessage at hok
  simp only [] at hok
  split at hok
  · simp [Emit.isError] at hok
  · rename_i hnot
    refine ⟨hnot, ?_⟩
    cases hc : ev.channelId with
    | none => simp [hc, Emit.isError] at hok
    | some c =>
      obtain ⟨f1, f2, f3⟩ := faults
      cases f1 <;> cases f2 <;> cases f3 <;> simp [hc, Emit.isError] at hok
      exact ⟨rfl, c, rfl⟩

/-- Effect of a run of `sendMessage` without failure: the message is appended,
`lastMessageAt` of the channel is set to its date, one activity record is
appended. -/
theorem sendMessage_success (xss : String → String) (env : Env) (socket : Socket)
    (ev : SendEvent) (s : ServerState) (c : Nat)
    (hnot : ¬ (jsTrim (xss (ev.content.getD "")) = "" ∧ ev.type.getD "text" = "text"))
    (hc : ev.channelId = some c) :
    (sendMessage xss noSendFaults env socket ev s).1.db.messages =
      s.db.messages ++ [sentMessage xss env socket ev c] ∧
    (sendMessage xss noSendFaults env socket ev s).1.db.channels =
      touchChannel c env.messageNow s.db.channels ∧
    (sendMessage xss noSendFaults env socket ev s).1.db.users = s.db.users ∧
    (sendMessage xss noSendFaults env socket ev s).1.rooms = s.rooms := by
  simp [sendMessage, hnot, hc, noSendFaults, setLastMessageAt, sentMessage]

/-- Claim C6: when the creation of the message fails (the store operation
throws, or the channel id cannot be cast), `sendMessage` leaves the state
unchanged and sends exactly one `error` notification, to the sender; and every
`newMessage` it broadcasts carries the id, content, type and date of the
message that the same run appended to the `messages` collection. -/
theorem sendMessage_persist_before_broadcast (xss : String → String) (faults : SendFaults)
    (env : Env) (socket : Socket) (ev : SendEvent) (s : ServerState) :
    ((faults.messageCreate = true ∨ ev.channelId = none) →
      (sendMessage xss faults env socket ev s).1 = s ∧
      ∃ text, (sendMessage xss faults env socket ev s).2 = [Emit.error socket.id text]) ∧
    (∀ room payload, Emit.newMessage room payload ∈ (sendMessage xss faults env socket ev s).2 →
      ∃ m : Message,
        (sendMessage xss faults env socket ev s).1.db.messages = s.db.messages ++ [m] ∧
        m.channel = room ∧ payload.id = m._id ∧ payload.content = m.content ∧
        payload.type = m.type ∧ payload.createdAt = m.createdAt) := by
  constructor
  · intro hfail
    unfold sendMessage
    simp only []
    split
    · exact ⟨rfl, _, rfl⟩
    · rcases hfail with h | h
      · cases hc : ev.channelId with
        | none => exact ⟨rfl, _, rfl⟩
        | some c => simp [h]
      · simp [h]
  · intro room payload hmem
    unfold sendMessage at hmem ⊢
    simp only [] at hmem ⊢
    split at hmem
    · simp at hmem
    · cases hc : ev.channelId with
      | none => simp [hc] at hmem
      | some c =>
        obtain ⟨f1, f2, f3⟩ := faults
        cases f1 <;> cases f2 <;> cases f3 <;> simp [hc] at hmem
        obtain ⟨hroom, hpayload⟩ := hmem
        subst hroom hpayload
        rename_i hnot
        simp [hc, hnot, setLastMessageAt]

/-- Witness of C6: the creation of the message throws. -/
theorem sendMessage_persist_before_broadcast_witness :
    ((true = true ∨ (some 7 : Option Nat) = none) →
      (sendMessage xssPlain
          { messageCreate := true, channelUpdate := false, activityCreate := false }
          exampleEnv annSocket { channelId := some 7, content := some "hi", type := none }
          exampleState).1 = exampleState ∧
      ∃ text, (sendMessage xssPlain
          { messageCreate := true, channelUpdate := false, activityCreate := false }
          exampleEnv annSocket { channelId := some 7, content := some "hi", type := none }
          exampleState).2 = [Emit.error annSocket.id text]) ∧
    (∀ room payload, Emit.newMessage room payload ∈ (sendMessage xssPlain noSendFaults
          exampleEnv annSocket { channelId := some 7, content := some "hi", type := none }
          exampleState).2 →
      ∃ m : Message,
        (sendMessage xssPlain noSendFaults exampleEnv annSocket
          { channelId := some 7, content := some "hi", type := none }
          exampleState).1.db.messages = exampleState.db.messages ++ [m] ∧
        m.channel = room ∧ payload.id = m._id ∧ payload.content = m.content ∧
        payload.type = m.type ∧ payload.createdAt = m.createdAt) :=
  ⟨(sendMessage_persist_before_broadcast xssPlain
      { messageCreate := true, channelUpdate := false, activityCreate := false }
      exampleEnv annSocket { channelId := some 7, content := some "hi", type := none }
      exampleState).1,
   (sendMessage_persist_before_broadcast xssPlain noSendFaults
      exampleEnv annSocket { channelId := some 7, content := some "hi", type := none }
      exampleState).2⟩

/-- Counterexample to C5: the message is persisted and the update of
`lastMessageAt` (or the creation of the activity record) throws; the sender
gets `error 'Failed to send message'` and nothing is broadcast.  Likewise a
failing activity record in `joinChannel` and `leaveChannel` yields an `error`
and no `user_joined` or `user_left`. -/
theorem bestEffort_counterexample :
    (sendMessage xssPlain
        { messageCreate := false, channelUpdate := true, activityCreate := false }
        exampleEnv annSocket hiEvent exampleState).1.db.messages =
      [sentMessage xssPlain exampleEnv annSocket hiEvent 7] ∧
    (sendMessage xssPlain
        { messageCreate := false, channelUpdate := true, activityCreate := false }
        exampleEnv annSocket hiEvent exampleState).2 =
      [Emit.error 11 "Failed to send message"] ∧
    (sendMessage xssPlain
        { messageCreate := false, channelUpdate := false, activityCreate := true }
        exampleEnv annSocket hiEvent exampleState).2 =
      [Emit.error 11 "Failed to send message"] ∧
    (joinChannel activityFault exampleEnv bobSocket (some 7) exampleState).2 =
      [Emit.error 12 "Failed to join channel"] ∧
    (leaveChannel activityFault exampleEnv annSocket (some 7) exampleState).2 =
      [Emit.error 11 "Failed to leave channel"] := by
  decide

/-- Claim C5 as amended: when the message was persisted and the update of
`lastMessageAt` or the creation of the activity record then throws,
`sendMessage` sends exactly one notification, `error 'Failed to send message'`
to the sender, broadcasts nothing, and the message stays in the store.  When
only the creation of the activity record throws, `joinChannel` (on an existing
channel) and `leaveChannel` send exactly one `error` notification to the
sender and no broadcast, the socket having already joined or left the room. -/
theorem failure_after_persist (xss : String → String) (faults : SendFaults) (env : Env)
    (socket : Socket) (ev : SendEvent) (s : ServerState) (c : Nat) :
    (¬ (jsTrim (xss (ev.content.getD "")) = "" ∧ ev.type.getD "text" = "text") →
      ev.channelId = some c → faults.messageCreate = false →
      (faults.channelUpdate = true ∨ faults.activityCreate = true) →
      (sendMessage xss faults env socket ev s).2 =
        [Emit.error socket.id "Failed to send message"] ∧
      (sendMessage xss faults env socket ev s).1.db.messages =
        s.db.messages ++ [sentMessage xss env socket ev c]) ∧
    ((∃ ch, findChannel s.db.channels c = some ch) →
      (joinChannel activityFault env socket (some c) s).2 =
        [Emit.error socket.id "Failed to join channel"] ∧
      (joinChannel activityFault env socket (some c) s).1.rooms =
        joinRoom socket.id c s.rooms ∧
      (joinChannel activityFault env socket (some c) s).1.db.activities = s.db.activities) ∧
    ((leaveChannel activityFault env socket (some c) s).2 =
        [Emit.error socket.id "Failed to leave channel"] ∧
      (leaveChannel activityFault env socket (some c) s).1.rooms =
        leaveRoom socket.id c s.rooms ∧
      (leaveChannel activityFault env socket (some c) s).1.db.activities = s.db.activities) := by
  refine ⟨?_, ?_, ?_⟩
  · intro hnot hc hcreate hfail
    obtain ⟨f1, f2, f3⟩ := faults
    simp only at hcreate hfail
    subst hcreate
    unfold sendMessage
    simp only [if_neg hnot, hc]
    cases f2 <;> cases f3 <;> simp [sentMessage, setLastMessageAt] at hfail ⊢
  · rintro ⟨ch, hch⟩
    by_cases hmem : socket.userId ∈ ch.members <;>
      simp [joinChannel, activityFault, hch, hmem, setMembers, updateUserChannels]
  · cases hch : findChannel s.db.channels c <;>
      simp [leaveChannel, activityFault, hch, setMembers, updateUserChannels]

/-- Witness of C5 as amended, on the example state. -/
theorem failure_after_persist_witness :
    ((sendMessage xssPlain
        { messageCreate := false, channelUpdate := true, activityCreate := false }
        exampleEnv annSocket hiEvent exampleState).2 =
        [Emit.error annSocket.id "Failed to send message"] ∧
      (sendMessage xssPlain
        { messageCreate := false, channelUpdate := true, activityCreate := false }
        exampleEnv annSocket hiEvent exampleState).1.db.messages =
        exampleState.db.messages ++ [sentMessage xssPlain exampleEnv annSocket hiEvent 7]) ∧
    ((joinChannel activityFault exampleEnv annSocket (some 7) exampleState).2 =
        [Emit.error annSocket.id "Failed to join channel"] ∧
      (joinChannel activityFault exampleEnv annSocket (some 7) exampleState).1.rooms =
        joinRoom annSocket.id 7 exampleState.rooms ∧
      (joinChannel activityFault exampleEnv annSocket (some 7) exampleState).1.db.activities =
        exampleState.db.activities) :=
  ⟨(failure_after_persist xssPlain
      { messageCreate := false, channelUpdate := true, activityCreate := false }
      exampleEnv annSocket hiEvent exampleState 7).1 (by decide) rfl rfl (Or.inl rfl),
   (failure_after_persist xssPlain noSendFaults exampleEnv annSocket hiEvent exampleState 7).2.1
      ⟨_, rfl⟩⟩

/-! ### Durable membership -/

theorem findChannel_updateChannel (f : Channel → Channel) (hf : ∀ ch, (f ch)._id = ch._id)
    (c : Nat) (chs : List Channel) :
    findChannel (updateChannel f c chs) c = (findChannel chs c).map f := by
  induction chs with
  | nil => rfl
  | cons x xs ih =>
    by_cases hx : x._id = c
    · simp [findChannel, updateChannel, hx, hf]
    · simp [findChannel, updateChannel, hx, ih]

theorem membersOf_setMembers (c : Nat) (members : List Nat) (db : Store) (ch : Channel)
    (hch : findChannel db.channels c = some ch) :
    membersOf (setMembers c members db) c = some members := by
  simp [membersOf, setMembers, findChannel_updateChannel, hch]

/-- Members list after a run of `joinChannel` on an existing channel, for
every pattern of store failures. -/
theorem joinChannel_members (faults : MemberFaults) (env : Env) (socket : Socket) (c : Nat)
    (s : ServerState) (ch : Channel) (hch : findChannel s.db.channels c = some ch) :
    membersOf (joinChannel faults env socket (some c) s).1.db c =
      some (if socket.userId ∈ ch.members ∨ faults.findById = true ∨ faults.save = true
        then ch.members else ch.members ++ [socket.userId]) := by
  have h0 : membersOf s.db c = some ch.members := by simp [membersOf, hch]
  have h1 : membersOf (setMembers c (ch.members ++ [socket.userId]) s.db) c =
      some (ch.members ++ [socket.userId]) := membersOf_setMembers c _ s.db ch hch
  obtain ⟨f1, f2, f3, f4⟩ := faults
  by_cases hmem : socket.userId ∈ ch.members <;>
    cases f1 <;> cases f2 <;> cases f3 <;> cases f4 <;>
    simp [joinChannel, hch, hmem, h0, h1, updateUserChannels, membersOf] <;>
    simpa [membersOf] using h1

/-- A run of `joinChannel` that sends no `error` found the channel and met no
store failure on the operations it performed. -/
theorem joinChannel_of_no_error (faults : MemberFaults) (env : Env) (socket : Socket)
    (c : Nat) (s : ServerState)
    (hok : ∀ e ∈ (joinChannel faults env socket (some c) s).2, e.isError = false) :
    ∃ ch, findChannel s.db.channels c = some ch ∧ faults.findById = false ∧
      (socket.userId ∉ ch.members → faults.save = false) := by
  obtain ⟨f1, f2, f3, f4⟩ := faults
  cases hch : findChannel s.db.channels c with
  | none => cases f1 <;> simp [joinChannel, hch, Emit.isError] at hok
  | some ch =>
    refine ⟨ch, rfl, ?_, ?_⟩
    · cases f1
      · rfl
      · simp [joinChannel, Emit.isError] at hok
    · intro hmem
      cases f1 <;> cases f2 <;> simp [joinChannel, hch, hmem, Emit.isError] at hok ⊢

/-- Members list after a run of `leaveChannel` that sends no `error`. -/
theorem leaveChannel_members (faults : MemberFaults) (env : Env) (socket : Socket) (c : Nat)
    (s : ServerState) (ch : Channel) (hch : findChannel s.db.channels c = some ch)
    (hok : ∀ e ∈ (leaveChannel faults env socket (some c) s).2, e.isError = false) :
    membersOf (leaveChannel faults env socket (some c) s).1.db c =
      some (ch.members.filter (fun m => m ≠ socket.userId)) := by
  have h1 := membersOf_setMembers c (ch.members.filter (fun m => m ≠ socket.userId)) s.db ch hch
  obtain ⟨f1, f2, f3, f4⟩ := faults
  cases f1 <;> cases f2 <;> cases f3 <;> cases f4 <;>
    simp [leaveChannel, hch, Emit.isError] at hok
  simp [leaveChannel, hch, updateUserChannels, membersOf]
  simpa [membersOf] using h1

/-- Counterexample to C3: user 1 is already a member of channel 7; a
successful join followed by a successful leave ends with the members list
`[]`, not with the list `[1]` it was before the join. -/
theorem join_leave_counterexample :
    (∀ e ∈ (joinChannel noMemberFaults exampleEnv annSocket (some 7) exampleState).2,
      e.isError = false) ∧
    (∀ e ∈ (leaveChannel noMemberFaults exampleEnv annSocket (some 7)
        (joinChannel noMemberFaults exampleEnv annSocket (some 7) exampleState).1).2,
      e.isError = false) ∧
    membersOf exampleState.db 7 = some [1] ∧
    membersOf (leaveChannel noMemberFaults exampleEnv annSocket (some 7)
        (joinChannel noMemberFaults exampleEnv annSocket (some 7) exampleState).1).1.db 7 =
      some [] := by
  decide

/-- Claim C3 as amended: after a `joinChannel` and then a `leaveChannel` of the
same identity on an existing channel, both without `error`, the members list
is the list before the join with every occurrence of the identity removed; it
is the list before the join exactly when the identity was not in it. -/
theorem join_then_leave_members (fj fl : MemberFaults) (ej el : Env) (socket : Socket)
    (c : Nat) (s : ServerState) (ch : Channel)
    (hch : findChannel s.db.channels c = some ch)
    (hjoin : ∀ e ∈ (joinChannel fj ej socket (some c) s).2, e.isError = false)
    (hleave : ∀ e ∈ (leaveChannel fl el socket (some c)
      (joinChannel fj ej socket (some c) s).1).2, e.isError = false) :
    membersOf (leaveChannel fl el socket (some c) (joinChannel fj ej socket (some c) s).1).1.db c
      = some (ch.members.filter (fun m => m ≠ socket.userId)) ∧
    (membersOf (leaveChannel fl el socket (some c)
        (joinChannel fj ej socket (some c) s).1).1.db c = some ch.members ↔
      socket.userId ∉ ch.members) := by
  obtain ⟨ch0, hch0, hfind, hsave⟩ := joinChannel_of_no_error fj ej socket c s hjoin
  rw [hch] at hch0
  cases hch0
  have hj := joinChannel_members fj ej socket c s ch hch
  obtain ⟨ch1, hch1, hmem1⟩ : ∃ ch1,
      findChannel (joinChannel fj ej socket (some c) s).1.db.channels c = some ch1 ∧
      ch1.members = (if socket.userId ∈ ch.members ∨ fj.findById = true ∨ fj.save = true
        then ch.members else ch.members ++ [socket.userId]) := by
    simp only [membersOf, Option.map_eq_some'] at hj
    exact hj
  have hl := leaveChannel_members fl el socket c _ ch1 hch1 hleave
  have hfilter : ch1.members.filter (fun m => m ≠ socket.userId) =
      ch.members.filter (fun m => m ≠ socket.userId) := by
    rw [hmem1]
    by_cases hmem : socket.userId ∈ ch.members
    · simp [hmem]
    · simp [hmem, hfind, hsave hmem, List.filter_append]
  rw [hl, hfilter]
  refine ⟨rfl, ?_⟩
  rw [Option.some_inj, List.filter_eq_self]
  constructor
  · intro h hmem
    simpa using h _ hmem
  · intro h a ha
    have : a ≠ socket.userId := fun heq => h (heq ▸ ha)
    simpa using this

/-- Witness of C3 as amended: user 2, not a member of channel 7, joins and
leaves. -/
theorem join_then_leave_members_witness :
    (findChannel exampleState.db.channels 7 =
        some { _id := 7, name := "general", members := [1], lastMessageAt := none } ∧
      (∀ e ∈ (joinChannel noMemberFaults exampleEnv bobSocket (some 7) exampleState).2,
        e.isError = false) ∧
      (∀ e ∈ (leaveChannel noMemberFaults exampleEnv bobSocket (some 7)
          (joinChannel noMemberFaults exampleEnv bobSocket (some 7) exampleState).1).2,
        e.isError = false)) ∧
    membersOf (leaveChannel noMemberFaults exampleEnv bobSocket (some 7)
        (joinChannel noMemberFaults exampleEnv bobSocket (some 7) exampleState).1).1.db 7
      = some ([1].filter (fun m => m ≠ bobSocket.userId)) :=
  ⟨⟨by decide, by decide, by decide⟩,
    (join_then_leave_members noMemberFaults noMemberFaults exampleEnv exampleEnv bobSocket 7
      exampleState { _id := 7, name := "general", members := [1], lastMessageAt := none }
      (by decide) (by decide) (by decide)).1⟩

/-- Claim C4: on an existing channel, `joinChannel` leaves the members list
unchanged when the identity is already in it; otherwise, when the run sends no
`error`, the identity occurs exactly once afterwards; a second join after a
join without `error` leaves the members list as the first join made it; and a
members list without duplicates stays without duplicates. -/
theorem joinChannel_idempotent (faults faults2 : MemberFaults) (env env2 : Env)
    (socket : Socket) (c : Nat) (s : ServerState) (ch : Channel)
    (hch : findChannel s.db.channels c = some ch) :
    (socket.userId ∈ ch.members →
      membersOf (joinChannel faults env socket (some c) s).1.db c = some ch.members) ∧
    (socket.userId ∉ ch.members →
      (∀ e ∈ (joinChannel faults env socket (some c) s).2, e.isError = false) →
      ∃ ms, membersOf (joinChannel faults env socket (some c) s).1.db c = some ms ∧
        ms.count socket.userId = 1) ∧
    ((∀ e ∈ (joinChannel faults env socket (some c) s).2, e.isError = false) →
      membersOf (joinChannel faults2 env2 socket (some c)
          (joinChannel faults env socket (some c) s).1).1.db c =
        membersOf (joinChannel faults env socket (some c) s).1.db c) ∧
    (ch.members.Nodup →
      ∃ ms, membersOf (joinChannel faults env socket (some c) s).1.db c = some ms ∧
        ms.Nodup) := by
  have hj := joinChannel_members faults env socket c s ch hch
  refine ⟨?_, ?_, ?_, ?_⟩
  · intro hmem
    rw [hj]
    simp [hmem]
  · intro hmem hok
    obtain ⟨ch0, hch0, hfind, hsave⟩ := joinChannel_of_no_error faults env socket c s hok
    rw [hch] at hch0
    cases hch0
    refine ⟨ch.members ++ [socket.userId], ?_, ?_⟩
    · rw [hj]
      simp [hmem, hfind, hsave hmem]
    · simp [List.count_append, List.count_eq_zero_of_not_mem hmem]
  · intro hok
    obtain ⟨ch0, hch0, hfind, hsave⟩ := joinChannel_of_no_error faults env socket c s hok
    rw [hch] at hch0
    cases hch0
    obtain ⟨ch1, hch1, hmem1⟩ : ∃ ch1,
        findChannel (joinChannel faults env socket (some c) s).1.db.channels c = some ch1 ∧
        ch1.members = (if socket.userId ∈ ch.members ∨ faults.findById = true ∨
          faults.save = true then ch.members else ch.members ++ [socket.userId]) := by
      simp only [membersOf, Option.map_eq_some'] at hj
      exact hj
    have hin : socket.userId ∈ ch1.members := by
      rw [hmem1]
      by_cases hmem : socket.userId ∈ ch.members
      · simp [hmem]
      · simp [hmem, hfind, hsave hmem]
    rw [joinChannel_members faults2 env2 socket c _ ch1 hch1]
    simp [hin, membersOf, hch1]
  · intro hnodup
    refine ⟨_, hj, ?_⟩
    split
    · exact hnodup
    · rename_i hcond
      have hmem : socket.userId ∉ ch.members := fun h => hcond (Or.inl h)
      exact List.Nodup.append hnodup (List.nodup_singleton _) (by simpa using hmem)

/-- Witness of C4: user 2 joins channel 7 of the example state. -/
theorem joinChannel_idempotent_witness :
    findChannel exampleState.db.channels 7 =
        some { _id := 7, name := "general", members := [1], lastMessageAt := none } ∧
    (∃ ms, membersOf (joinChannel noMemberFaults exampleEnv bobSocket (some 7)
        exampleState).1.db 7 = some ms ∧ ms.count bobSocket.userId = 1) ∧
    membersOf (joinChannel noMemberFaults exampleEnv bobSocket (some 7)
          (joinChannel noMemberFaults exampleEnv bobSocket (some 7) exampleState).1).1.db 7 =
        membersOf (joinChannel noMemberFaults exampleEnv bobSocket (some 7) exampleState).1.db 7 ∧
    (∃ ms, membersOf (joinChannel noMemberFaults exampleEnv bobSocket (some 7)
        exampleState).1.db 7 = some ms ∧ ms.Nodup) :=
  have h := joinChannel_idempotent noMemberFaults noMemberFaults exampleEnv exampleEnv bobSocket
    7 exampleState { _id := 7, name := "general", members := [1], lastMessageAt := none }
    (by decide)
  ⟨by decide, h.2.1 (by decide) (by decide), h.2.2.1 (by decide), h.2.2.2 (by decide)⟩

/-! ### Sequences of sends -/

theorem findChannel_touchChannel (c t : Nat) (chs : List Channel) :
    findChannel (touchChannel c t chs) c =
      (findChannel chs c).map (fun ch => { ch with lastMessageAt := some t }) :=
  findChannel_updateChannel (fun ch => { ch with lastMessageAt := some t }) (fun _ => rfl) c chs

/-- Store after a sequence of `sendMessage` events to channel `c` none of
which sends an `error`. -/
theorem runSends_ok (xss : String → String) (c : Nat) :
    ∀ (calls : List SendCall) (s : ServerState),
      (∀ call ∈ calls, call.ev.channelId = some c) →
      (∀ e ∈ (runSends xss calls s).2, e.isError = false) →
      (runSends xss calls s).1.db.messages =
        s.db.messages ++ calls.map (fun call => sentMessage xss call.env call.socket call.ev c) ∧
      (runSends xss calls s).1.db.channels =
        (calls.map (fun call => call.env.messageNow)).foldl
          (fun chs t => touchChannel c t chs) s.db.channels ∧
      (runSends xss calls s).1.db.users = s.db.users := by
  intro calls
  induction calls with
  | nil => intro s _ _; simp [runSends]
  | cons call rest ih =>
    intro s hto hok
    have hc : call.ev.channelId = some c := hto call (List.mem_cons_self _ _)
    have hhead : ∀ e ∈ (sendMessage xss call.faults call.env call.socket call.ev s).2,
        e.isError = false := by
      intro e he
      exact hok e (by simp [runSends, he])
    have htail : ∀ e ∈ (runSends xss rest
        (sendMessage xss call.faults call.env call.socket call.ev s).1).2,
        e.isError = false := by
      intro e he
      exact hok e (by simp [runSends, he])
    obtain ⟨hnot, hfaults, _⟩ :=
      sendMessage_of_no_error xss call.faults call.env call.socket call.ev s hhead
    obtain ⟨hm, hch, hu, _⟩ := sendMessage_success xss call.env call.socket call.ev s c hnot hc
    rw [← hfaults] at hm hch hu
    obtain ⟨ihm, ihch, ihu⟩ := ih _ (fun x hx => hto x (List.mem_cons_of_mem _ hx)) htail
    refine ⟨?_, ?_, ?_⟩
    · simp only [runSends, ihm, hm, List.map_cons, List.append_assoc, List.singleton_append]
    · simp only [runSends, ihch, hch, List.map_cons, List.foldl_cons]
    · simp only [runSends, ihu, hu]

theorem findChannel_touch_foldl (c : Nat) :
    ∀ (times : List Nat) (chs : List Channel) (ch : Channel),
      findChannel chs c = some ch →
      ∃ ch1, findChannel (times.foldl (fun chs t => touchChannel c t chs) chs) c = some ch1 := by
  intro times
  induction times with
  | nil => intro chs ch h; exact ⟨ch, h⟩
  | cons t rest ih =>
    intro chs ch h
    exact ih (touchChannel c t chs) _ (by rw [findChannel_touchChannel, h]; rfl)

/-- After a non-empty sequence of `lastMessageAt` updates of an existing
channel, the field holds the date of the last update. -/
theorem lastMessageAt_touch_foldl (c : Nat) (times : List Nat) (t : Nat) (chs : List Channel)
    (ch : Channel) (h : findChannel chs c = some ch) :
    (findChannel ((times ++ [t]).foldl (fun chs t => touchChannel c t chs) chs) c).map
      (fun ch => ch.lastMessageAt) = some (some t) := by
  obtain ⟨ch1, h1⟩ := findChannel_touch_foldl c times chs ch h
  simp [List.foldl_append, findChannel_touchChannel, h1]

/-- A request `postMessage` answered with 201 had a non-empty content, a
castable channel id and met no store failure. -/
theorem postMessage_of_created (xss : String → String) (faults : SendFaults) (env : Env)
    (userId : Nat) (channelId : Option Nat) (content type : Option String) (db : Store)
    (hok : (postMessage xss faults env userId channelId content type db).2.isCreated = true) :
    sanitizeText xss content ≠ "" ∧ faults = noSendFaults ∧ ∃ c, channelId = some c := by
  unfold postMessage at hok
  simp only [] at hok
  split at hok
  · simp [PostResponse.isCreated] at hok
  · rename_i hne
    refine ⟨hne, ?_⟩
    cases hc : channelId with
    | none => simp [hc, PostResponse.isCreated] at hok
    | some c =>
      obtain ⟨f1, f2, f3⟩ := faults
      cases f1 <;> cases f2 <;> cases f3 <;> simp [hc, PostResponse.isCreated] at hok
      exact ⟨rfl, c, rfl⟩

/-- Effect of a request `postMessage` without failure. -/
theorem postMessage_success (xss : String → String) (env : Env) (userId : Nat)
    (channelId : Option Nat) (content type : Option String) (db : Store) (c : Nat)
    (hne : sanitizeText xss content ≠ "") (hc : channelId = some c) :
    (postMessage xss noSendFaults env userId channelId content type db).1.messages =
      db.messages ++ [postedMessage xss env userId content type c] ∧
    (postMessage xss noSendFaults env userId channelId content type db).1.channels =
      touchChannel c env.messageNow db.channels ∧
    (postMessage xss noSendFaults env userId channelId content type db).1.users = db.users := by
  simp [postMessage, hne, hc, noSendFaults, setLastMessageAt, postedMessage]

/-- Store after a sequence of requests `postMessage` to channel `c` all
answered with 201. -/
theorem runPosts_ok (xss : String → String) (c : Nat) :
    ∀ (calls : List PostCall) (db : Store),
      (∀ call ∈ calls, call.channelId = some c) →
      (∀ r ∈ (runPosts xss calls db).2, r.isCreated = true) →
      (runPosts xss calls db).1.messages =
        db.messages ++ calls.map
          (fun call => postedMessage xss call.env call.userId call.content call.type c) ∧
      (runPosts xss calls db).1.channels =
        (calls.map (fun call => call.env.messageNow)).foldl
          (fun chs t => touchChannel c t chs) db.channels ∧
      (runPosts xss calls db).1.users = db.users := by
  intro calls
  induction calls with
  | nil => intro db _ _; simp [runPosts]
  | cons call rest ih =>
    intro db hto hok
    have hc : call.channelId = some c := hto call (List.mem_cons_self _ _)
    have hhead : (postMessage xss call.faults call.env call.userId call.channelId call.content
        call.type db).2.isCreated = true := hok _ (by simp [runPosts])
    have htail : ∀ r ∈ (runPosts xss rest
        (postMessage xss call.faults call.env call.userId call.channelId call.content
          call.type db).1).2, r.isCreated = true := by
      intro r hr
      exact hok r (by simp [runPosts, hr])
    obtain ⟨hne, hfaults, _⟩ := postMessage_of_created xss call.faults call.env call.userId
      call.channelId call.content call.type db hhead
    obtain ⟨hm, hch, hu⟩ := postMessage_success xss call.env call.userId call.channelId
      call.content call.type db c hne hc
    rw [← hfaults] at hm hch hu
    obtain ⟨ihm, ihch, ihu⟩ := ih _ (fun x hx => hto x (List.mem_cons_of_mem _ hx)) htail
    refine ⟨?_, ?_, ?_⟩
    · simp only [runPosts, ihm, hm, List.map_cons, List.append_assoc, List.singleton_append]
    · simp only [runPosts, ihch, hch, List.map_cons, List.foldl_cons]
    · simp only [runPosts, ihu, hu]

/-- Claim C7: after a non-empty sequence of `sendMessage` events to an existing
channel, handled one after another and none of which sends an `error`, the
store holds one new message per event and `lastMessageAt` of the channel is the
`createdAt` of the last of them; the same holds for a sequence of requests
`postMessage` all answered with 201. -/
theorem lastMessageAt_after_sends (xss : String → String) (c : Nat) (ch : Channel) :
    (∀ (calls : List SendCall) (s : ServerState),
      findChannel s.db.channels c = some ch → calls ≠ [] →
      (∀ call ∈ calls, call.ev.channelId = some c) →
      (∀ e ∈ (runSends xss calls s).2, e.isError = false) →
      ∃ (new : List Message) (last : Message),
        (runSends xss calls s).1.db.messages = s.db.messages ++ new ∧
        new.length = calls.length ∧ new.getLast? = some last ∧
        (findChannel (runSends xss calls s).1.db.channels c).map (fun ch => ch.lastMessageAt) =
          some (some last.createdAt)) ∧
    (∀ (calls : List PostCall) (db : Store),
      findChannel db.channels c = some ch → calls ≠ [] →
      (∀ call ∈ calls, call.channelId = some c) →
      (∀ r ∈ (runPosts xss calls db).2, r.isCreated = true) →
      ∃ (new : List Message) (last : Message),
        (runPosts xss calls db).1.messages = db.messages ++ new ∧
        new.length = calls.length ∧ new.getLast? = some last ∧
        (findChannel (runPosts xss calls db).1.channels c).map (fun ch => ch.lastMessageAt) =
          some (some last.createdAt)) := by
  constructor
  · intro calls s hch hne hto hok
    obtain ⟨hm, hchs, _⟩ := runSends_ok xss c calls s hto hok
    rcases List.eq_nil_or_concat calls with h | ⟨l, x, h⟩
    · exact absurd h hne
    · rw [List.concat_eq_append] at h
      subst h
      refine ⟨_, sentMessage xss x.env x.socket x.ev c, hm, by simp, by simp, ?_⟩
      rw [hchs, List.map_append, List.map_singleton]
      exact lastMessageAt_touch_foldl c _ _ _ ch hch
  · intro calls db hch hne hto hok
    obtain ⟨hm, hchs, _⟩ := runPosts_ok xss c calls db hto hok
    rcases List.eq_nil_or_concat calls with h | ⟨l, x, h⟩
    · exact absurd h hne
    · rw [List.concat_eq_append] at h
      subst h
      refine ⟨_, postedMessage xss x.env x.userId x.content x.type c, hm, by simp, by simp, ?_⟩
      rw [hchs, List.map_append, List.map_singleton]
      exact lastMessageAt_touch_foldl c _ _ _ ch hch

/-- Witness of C7: two sends, and two posts, to channel 7 of the example
state. -/
theorem lastMessageAt_after_sends_witness :
    (∃ (new : List Message) (last : Message),
      (runSends xssPlain (exampleCalls 2) exampleState).1.db.messages =
        exampleState.db.messages ++ new ∧
      new.length = (exampleCalls 2).length ∧ new.getLast? = some last ∧
      (findChannel (runSends xssPlain (exampleCalls 2) exampleState).1.db.channels 7).map
        (fun ch => ch.lastMessageAt) = some (some last.createdAt)) ∧
    (∃ (new : List Message) (last : Message),
      (runPosts xssPlain examplePosts exampleState.db).1.messages =
        exampleState.db.messages ++ new ∧
      new.length = examplePosts.length ∧ new.getLast? = some last ∧
      (findChannel (runPosts xssPlain examplePosts exampleState.db).1.channels 7).map
        (fun ch => ch.lastMessageAt) = some (some last.createdAt)) :=
  ⟨(lastMessageAt_after_sends xssPlain 7
      { _id := 7, name := "general", members := [1], lastMessageAt := none }).1
      (exampleCalls 2) exampleState (by decide) (by decide) (by decide) (by decide),
   (lastMessageAt_after_sends xssPlain 7
      { _id := 7, name := "general", members := [1], lastMessageAt := none }).2
      examplePosts exampleState.db (by decide) (by decide) (by decide) (by decide)⟩

set_option maxRecDepth 100000 in
/-- Counterexample to C8: after 51 successful sends into the empty channel 7,
`getMessages` without `limit` and `before` answers with count 50. -/
theorem getMessages_default_limit_counterexample :
    (∀ m ∈ exampleState.db.messages, m.channel ≠ 7) ∧
    (exampleCalls 51).length = 51 ∧
    (∀ call ∈ exampleCalls 51, call.ev.channelId = some 7) ∧
    (∀ e ∈ (runSends xssPlain (exampleCalls 51) exampleState).2, e.isError = false) ∧
    (∃ messages, getMessages (runSends xssPlain (exampleCalls 51) exampleState).1.db false
      (some 7) .nan .absent = some (.json 50 messages)) := by
  refine ⟨by decide, by decide, by decide, by decide, ?_⟩
  refine ⟨((((sortByCreatedAtDesc ((runSends xssPlain (exampleCalls 51) exampleState).1.db.messages.filter (matchesQuery 7 .absent))).take 50).reverse).map
          (populate (runSends xssPlain (exampleCalls 51) exampleState).1.db.users)), ?_⟩
  decide

/-- Claim C8 as amended: after `N` sends without `error` into a channel that
had no message, `getMessages` without `limit` and `before` answers with
`min(N, 50)` of the new messages in ascending `createdAt` order, `count` being
their number; no omitted message is newer than a returned one, and when
`N ≤ 50` the page is all `N` messages. -/
theorem getMessages_after_sends (xss : String → String) (c : Nat) (calls : List SendCall)
    (s : ServerState)
    (hempty : ∀ m ∈ s.db.messages, m.channel ≠ c)
    (hto : ∀ call ∈ calls, call.ev.channelId = some c)
    (hok : ∀ e ∈ (runSends xss calls s).2, e.isError = false) :
    ∃ (new page : List Message),
      (runSends xss calls s).1.db.messages = s.db.messages ++ new ∧
      new.length = calls.length ∧
      getMessages (runSends xss calls s).1.db false (some c) .nan .absent =
        some (.json page.length (page.map (populate (runSends xss calls s).1.db.users))) ∧
      page.length = min calls.length 50 ∧
      page.Pairwise (fun a b => a.createdAt ≤ b.createdAt) ∧
      (∀ m ∈ page, m ∈ new) ∧
      (∀ m ∈ new, m ∉ page → ∀ m' ∈ page, m.createdAt ≤ m'.createdAt) ∧
      (calls.length ≤ 50 → page.Perm new) := by
  obtain ⟨hm, _, _⟩ := runSends_ok xss c calls s hto hok
  have hfilter : (runSends xss calls s).1.db.messages.filter (matchesQuery c .absent) =
      calls.map (fun call => sentMessage xss call.env call.socket call.ev c) := by
    rw [hm, List.filter_append]
    have h1 : s.db.messages.filter (matchesQuery c .absent) = [] := by
      rw [List.filter_eq_nil_iff]
      intro m hmem
      simp [matchesQuery, hempty m hmem]
    have h2 : (calls.map (fun call => sentMessage xss call.env call.socket call.ev c)).filter
        (matchesQuery c .absent) =
        calls.map (fun call => sentMessage xss call.env call.socket call.ev c) := by
      rw [List.filter_eq_self]
      intro m hmem
      obtain ⟨call, _, rfl⟩ := List.mem_map.mp hmem
      simp [matchesQuery, sentMessage]
    rw [h1, h2, List.nil_append]
  have hlim : effectiveLimit .nan = .fin ((50 : Nat) : ℚ) := by decide
  have heq := getMessages_eq (runSends xss calls s).1.db c .nan .absent 50 (by decide) hlim
  rw [hfilter] at heq
  have hperm := sortByCreatedAtDesc_perm
    (calls.map (fun call => sentMessage xss call.env call.socket call.ev c))
  have hsorted := sortByCreatedAtDesc_sorted
    (calls.map (fun call => sentMessage xss call.env call.socket call.ev c))
  refine ⟨_, _, hm, by simp, heq, ?_, ?_, ?_, ?_, ?_⟩
  · rw [List.length_reverse, List.length_take, hperm.length_eq, List.length_map]
    exact Nat.min_comm _ _
  · rw [List.pairwise_reverse]
    exact hsorted.sublist (List.take_sublist _ _)
  · intro m hmem
    rw [List.mem_reverse] at hmem
    exact hperm.subset (List.mem_of_mem_take hmem)
  · intro m hmem hnot m' hm'
    rw [List.mem_reverse] at hnot hm'
    have hmS := hperm.symm.subset hmem
    rw [← List.take_append_drop 50 (sortByCreatedAtDesc
      (calls.map (fun call => sentMessage xss call.env call.socket call.ev c)))] at hmS hsorted
    rcases List.mem_append.mp hmS with h | h
    · exact absurd h hnot
    · exact (List.pairwise_append.mp hsorted).2.2 m' hm' m h
  · intro hle
    have hlen : (sortByCreatedAtDesc
        (calls.map (fun call => sentMessage xss call.env call.socket call.ev c))).length ≤ 50 := by
      rw [hperm.length_eq, List.length_map]
      exact hle
    rw [List.take_of_length_le hlen]
    exact (List.reverse_perm _).trans hperm

/-- Witness of C8 as amended: two sends into the empty channel 7. -/
theorem getMessages_after_sends_witness :
    ((∀ m ∈ exampleState.db.messages, m.channel ≠ 7) ∧
      (∀ call ∈ exampleCalls 2, call.ev.channelId = some 7) ∧
      (∀ e ∈ (runSends xssPlain (exampleCalls 2) exampleState).2, e.isError = false)) ∧
    ∃ (new page : List Message),
      (runSends xssPlain (exampleCalls 2) exampleState).1.db.messages =
        exampleState.db.messages ++ new ∧
      new.length = (exampleCalls 2).length ∧
      getMessages (runSends xssPlain (exampleCalls 2) exampleState).1.db false (some 7)
          .nan .absent =
        some (.json page.length
          (page.map (populate (runSends xssPlain (exampleCalls 2) exampleState).1.db.users))) ∧
      page.length = min (exampleCalls 2).length 50 ∧
      page.Pairwise (fun a b => a.createdAt ≤ b.createdAt) ∧
      (∀ m ∈ page, m ∈ new) ∧
      (∀ m ∈ new, m ∉ page → ∀ m' ∈ page, m.createdAt ≤ m'.createdAt) ∧
      ((exampleCalls 2).length ≤ 50 → page.Perm new) :=
  ⟨⟨by decide, by decide, by decide⟩,
    getMessages_after_sends xssPlain 7 (exampleCalls 2) exampleState
      (by decide) (by decide) (by decide)⟩

/-! ### Connection gateway -/

theorem authenticate_error (verify : String → Option TokenPayload) (token : Option String)
    (message : String) (h : authenticate verify token = .error message) :
    message = "Authentication error" := by
  unfold authenticate at h
  split at h
  · cases h; rfl
  · split at h
    · cases h; rfl
    · split at h
      · cases h; rfl
      · cases h

/-- Claim C12: a handshake whose token is absent, empty or rejected by the
verification is refused with 'Authentication error' and changes nothing: no
room is joined, the store is as before and no connection with handlers is
registered, whatever the world.  When the token is present and the
verification succeeds, the middleware sets `socket.user` to the verified
payload, and the connection handler (store connected, user lookup not
throwing) registers exactly one more connection, bound to the `id` and `name`
of that payload, and acknowledges with it.  The middleware accepts in no
other case, and no event handler changes the identity bound to an open
connection. -/
theorem authentication_gate (verify : String → Option TokenPayload) (token : Option String)
    (dbReady userFindFails : Bool) (socketId : Nat) (w : World) :
    ((token = none ∨ token = some "" ∨ ∃ t, token = some t ∧ verify t = none) →
      authenticate verify token = .error "Authentication error" ∧
      connect verify token dbReady userFindFails socketId w =
        (w, [.refuse "Authentication error"])) ∧
    (∀ t payload, token = some t → t ≠ "" → verify t = some payload →
      authenticate verify token = .ok payload ∧
      (connect verify token true false socketId w).1.conns =
        w.conns ++ [{ id := socketId, userId := payload.id, userName := payload.name }] ∧
      (connect verify token true false socketId w).1.server.db = w.server.db ∧
      (connect verify token true false socketId w).2 = [.connected socketId payload]) ∧
    (∀ payload, authenticate verify token = .ok payload →
      ∃ t, token = some t ∧ t ≠ "" ∧ verify t = some payload) ∧
    (∀ (xss : String → String) (env : Env) (socket : Socket) (event : ClientEvent),
      ∀ conn ∈ (dispatch xss env socket event w).1.conns, conn ∈ w.conns) := by
  refine ⟨?_, ?_, ?_, ?_⟩
  · intro h
    have hauth : authenticate verify token = .error "Authentication error" := by
      rcases h with h | h | ⟨t, h, hv⟩
      · simp [authenticate, h]
      · simp [authenticate, h]
      · by_cases ht : t = "" <;> simp [authenticate, h, hv, ht]
    exact ⟨hauth, by simp [connect, hauth]⟩
  · intro t payload htoken hne hverify
    have hauth : authenticate verify token = .ok payload := by
      simp [authenticate, htoken, hne, hverify]
    exact ⟨hauth, by simp [connect, hauth], by simp [connect, hauth],
      by simp [connect, hauth]⟩
  · intro payload h
    unfold authenticate at h
    split at h
    · cases h
    · rename_i t
      split at h
      · cases h
      · rename_i hne
        split at h
        · cases h
        · rename_i p hv
          cases h
          exact ⟨t, rfl, hne, hv⟩
  · intro xss env socket event conn hconn
    cases event with
    | joinChannel faults channelId => exact hconn
    | leaveChannel faults channelId => exact hconn
    | sendMessage faults ev => exact hconn
    | disconnect => exact (List.mem_filter.mp hconn).1
    | leaveChannelUndefined faults => exact hconn
    | noPayload => cases hconn

/-- Witness of C12: no token, and the valid token of user 1. -/
theorem authentication_gate_witness :
    (authenticate exampleVerify none = .error "Authentication error" ∧
      connect exampleVerify none true false 11 exampleWorld =
        (exampleWorld, [.refuse "Authentication error"])) ∧
    (authenticate exampleVerify (some "ann-token") =
        .ok { id := 1, email := "ann@example.org", name := "ann" } ∧
      (connect exampleVerify (some "ann-token") true false 11 exampleWorld).1.conns =
        exampleWorld.conns ++ [{ id := 11, userId := 1, userName := "ann" }] ∧
      (connect exampleVerify (some "ann-token") true false 11 exampleWorld).1.server.db =
        exampleWorld.server.db ∧
      (connect exampleVerify (some "ann-token") true false 11 exampleWorld).2 =
        [.connected 11 { id := 1, email := "ann@example.org", name := "ann" }]) :=
  ⟨(authentication_gate exampleVerify none true false 11 exampleWorld).1 (Or.inl rfl),
   (authentication_gate exampleVerify (some "ann-token") true false 11 exampleWorld).2.1
      "ann-token" { id := 1, email := "ann@example.org", name := "ann" } rfl (by decide) rfl⟩

/-- Counterexample to C13: the token of user 1 is accepted by the middleware,
the store is not connected; the connection handler sends `error 'Database not
connected'` and disconnects the socket. -/
theorem database_gate_counterexample :
    authenticate exampleVerify (some "ann-token") =
      .ok { id := 1, email := "ann@example.org", name := "ann" } ∧
    connect exampleVerify (some "ann-token") false false 11 exampleWorld =
      (exampleWorld, [.error 11 "Database not connected", .disconnect 11]) :=
  ⟨rfl, rfl⟩

/-- Claim C13 as amended: when the token was accepted and the store is not
connected, the connection handler sends `error 'Database not connected'` and
disconnects the socket.  On a connection with handlers, every event that
carries a payload leaves the open connections as they were, and every failure
in its handler is answered with exactly one notification, an `error` to that
connection: in `joinChannel` a malformed id or a failing lookup, save, user
update or activity creation ('Failed to join channel') and an unknown channel
('Channel not found'); in `leaveChannel` a malformed id or a failing store
operation ('Failed to leave channel'); in `sendMessage` an empty text ('Empty
message'), a malformed id or a failing store operation ('Failed to send
message'). -/
theorem handler_failures_keep_connection (verify : String → Option TokenPayload)
    (token : Option String) (payload : TokenPayload) (userFindFails : Bool) (socketId : Nat)
    (xss : String → String) (env : Env) (socket : Socket) (w : World) :
    (authenticate verify token = .ok payload →
      connect verify token false userFindFails socketId w =
        (w, [.error socketId "Database not connected", .disconnect socketId])) ∧
    (∀ event : ClientEvent, event ≠ .disconnect → event ≠ .noPayload →
      (dispatch xss env socket event w).1.conns = w.conns ∧
      ∃ emits, (dispatch xss env socket event w).2 = .sent emits ∧
        ((∀ e ∈ emits, e.isError = false) ∨
          ∃ message, emits = [Emit.error socket.id message])) ∧
    (∀ (faults : MemberFaults) (channelId : Option Nat),
      (channelId = none ∨ faults.findById = true →
        dispatch xss env socket (.joinChannel faults channelId) w =
          (w, .sent [Emit.error socket.id "Failed to join channel"])) ∧
      (∀ c, channelId = some c → faults.findById = false →
        findChannel w.server.db.channels c = none →
        dispatch xss env socket (.joinChannel faults channelId) w =
          (w, .sent [Emit.error socket.id "Channel not found"])) ∧
      (∀ c ch, channelId = some c → findChannel w.server.db.channels c = some ch →
        ((socket.userId ∉ ch.members ∧ faults.save = true) ∨ faults.userUpdate = true ∨
          faults.activityCreate = true) →
        (dispatch xss env socket (.joinChannel faults channelId) w).2 =
          .sent [Emit.error socket.id "Failed to join channel"])) ∧
    (∀ (faults : MemberFaults) (channelId : Option Nat),
      (channelId = none ∨ faults.findById = true →
        dispatch xss env socket (.leaveChannel faults channelId) w =
          (w, .sent [Emit.error socket.id "Failed to leave channel"])) ∧
      (∀ c, channelId = some c →
        (((findChannel w.server.db.channels c).isSome = true ∧ faults.save = true) ∨
          faults.userUpdate = true ∨ faults.activityCreate = true) →
        (dispatch xss env socket (.leaveChannel faults channelId) w).2 =
          .sent [Emit.error socket.id "Failed to leave channel"])) ∧
    (∀ (faults : SendFaults) (ev : SendEvent),
      ((jsTrim (xss (ev.content.getD "")) = "" ∧ ev.type.getD "text" = "text") →
        dispatch xss env socket (.sendMessage faults ev) w =
          (w, .sent [Emit.error socket.id "Empty message"])) ∧
      (¬ (jsTrim (xss (ev.content.getD "")) = "" ∧ ev.type.getD "text" = "text") →
        (ev.channelId = none ∨ faults.messageCreate = true ∨ faults.channelUpdate = true ∨
          faults.activityCreate = true) →
        (dispatch xss env socket (.sendMessage faults ev) w).2 =
          .sent [Emit.error socket.id "Failed to send message"])) := by
  refine ⟨?_, ?_, ?_, ?_, ?_⟩
  · intro h
    simp [connect, h]
  · intro event hd hn
    cases event with
    | disconnect => exact absurd rfl hd
    | noPayload => exact absurd rfl hn
    | joinChannel faults channelId =>
      refine ⟨rfl, _, rfl, ?_⟩
      cases channelId with
      | none => exact Or.inr ⟨_, rfl⟩
      | some c =>
        obtain ⟨f1, f2, f3, f4⟩ := faults
        cases hch : findChannel w.server.db.channels c with
        | none => cases f1 <;> simp [joinChannel, hch]
        | some ch =>
          by_cases hmem : socket.userId ∈ ch.members <;>
            cases f1 <;> cases f2 <;> cases f3 <;> cases f4 <;>
            simp [joinChannel, hch, hmem, Emit.isError]
    | leaveChannel faults channelId =>
      refine ⟨rfl, _, rfl, ?_⟩
      cases channelId with
      | none => exact Or.inr ⟨_, rfl⟩
      | some c =>
        obtain ⟨f1, f2, f3, f4⟩ := faults
        cases hch : findChannel w.server.db.channels c <;>
          cases f1 <;> cases f2 <;> cases f3 <;> cases f4 <;>
          simp [leaveChannel, hch, Emit.isError]
    | sendMessage faults ev =>
      refine ⟨rfl, _, rfl, ?_⟩
      unfold sendMessage
      simp only []
      split
      · exact Or.inr ⟨_, rfl⟩
      · cases hc : ev.channelId with
        | none => exact Or.inr ⟨_, rfl⟩
        | some c =>
          obtain ⟨f1, f2, f3⟩ := faults
          cases f1 <;> cases f2 <;> cases f3 <;> simp [Emit.isError]
    | leaveChannelUndefined faults =>
      refine ⟨rfl, _, rfl, ?_⟩
      obtain ⟨f1, f2, f3, f4⟩ := faults
      cases f1 <;> cases f3 <;> cases f4 <;> simp [leaveChannelUndefined, Emit.isError]
  · intro faults channelId
    obtain ⟨f1, f2, f3, f4⟩ := faults
    refine ⟨?_, ?_, ?_⟩
    · rintro (h | h)
      · subst h
        rfl
      · simp only at h
        subst h
        cases channelId <;> simp [dispatch, joinChannel]
    · intro c hc hfind hnone
      simp only at hfind
      subst hc hfind
      simp [dispatch, joinChannel, hnone]
    · intro c ch hc hch hfail
      subst hc
      by_cases hmem : socket.userId ∈ ch.members <;>
        cases f1 <;> cases f2 <;> cases f3 <;> cases f4 <;>
        simp [hmem] at hfail <;> simp [dispatch, joinChannel, hch, hmem]
  · intro faults channelId
    obtain ⟨f1, f2, f3, f4⟩ := faults
    refine ⟨?_, ?_⟩
    · rintro (h | h)
      · subst h
        rfl
      · simp only at h
        subst h
        cases channelId <;> simp [dispatch, leaveChannel]
    · intro c hc hfail
      subst hc
      cases hch : findChannel w.server.db.channels c <;>
        cases f1 <;> cases f2 <;> cases f3 <;> cases f4 <;>
        simp [hch] at hfail <;> simp [dispatch, leaveChannel, hch]
  · intro faults ev
    obtain ⟨f1, f2, f3⟩ := faults
    refine ⟨?_, ?_⟩
    · intro hempty
      simp [dispatch, sendMessage, hempty]
    · intro hnot hfail
      simp only [dispatch, sendMessage, if_neg hnot]
      cases hc : ev.channelId with
      | none => rfl
      | some c =>
        cases f1 <;> cases f2 <;> cases f3 <;> simp [hc] at hfail <;> simp

/-- Witness of C13 as amended: the store is down at connection time, a join
of a channel that does not exist, and a send whose activity record fails. -/
theorem handler_failures_keep_connection_witness :
    connect exampleVerify (some "ann-token") false false 11 exampleWorld =
      (exampleWorld, [.error 11 "Database not connected", .disconnect 11]) ∧
    dispatch xssPlain exampleEnv annSocket (.joinChannel noMemberFaults (some 99))
        { exampleWorld with conns := [annSocket] } =
      ({ exampleWorld with conns := [annSocket] },
        .sent [Emit.error annSocket.id "Channel not found"]) ∧
    (dispatch xssPlain exampleEnv annSocket
        (.sendMessage { messageCreate := false, channelUpdate := false, activityCreate := true }
          hiEvent) { exampleWorld with conns := [annSocket] }).2 =
      .sent [Emit.error annSocket.id "Failed to send message"] :=
  have h := handler_failures_keep_connection exampleVerify (some "ann-token")
    { id := 1, email := "ann@example.org", name := "ann" } false 11 xssPlain exampleEnv
    annSocket { exampleWorld with conns := [annSocket] }
  ⟨(handler_failures_keep_connection exampleVerify (some "ann-token")
      { id := 1, email := "ann@example.org", name := "ann" } false 11 xssPlain exampleEnv
      annSocket exampleWorld).1 rfl,
   (h.2.2.1 noMemberFaults (some 99)).2.1 99 rfl rfl (by decide),
   (h.2.2.2.2 { messageCreate := false, channelUpdate := false, activityCreate := true }
      hiEvent).2 (by decide) (Or.inr (Or.inr (Or.inr rfl)))⟩

/-! ### Channels that do not exist -/

theorem updateChannel_of_not_found (f : Channel → Channel) (c : Nat) (chs : List Channel)
    (h : findChannel chs c = none) : updateChannel f c chs = chs := by
  induction chs with
  | nil => rfl
  | cons x xs ih =>
    by_cases hx : x._id = c
    · simp [findChannel, hx] at h
    · simp only [findChannel, hx, if_false] at h
      simp [updateChannel, hx, ih h]

/-- Counterexample to C16: the `channelId` of the event is a string that is
not an `ObjectId`, so it names no channel; the answer is `error 'Failed to
join channel'`, not 'Channel not found'. -/
theorem joinChannel_malformed_counterexample :
    joinChannel noMemberFaults exampleEnv annSocket none exampleState =
      (exampleState, [Emit.error 11 "Failed to join channel"]) ∧
    (joinChannel noMemberFaults exampleEnv annSocket none exampleState).2 ≠
      [Emit.error 11 "Channel not found"] := by
  decide

/-- Claim C16 as amended: a `joinChannel` event whose channel id is well
formed, whose lookup does not throw and finds no channel is answered with the
single notification `error 'Channel not found'` to the requesting connection;
an event whose channel id is not well formed is answered with the single
notification `error 'Failed to join channel'` to the requesting connection;
in both cases the server state (channels, users, rooms, activity records) is
unchanged and nothing is broadcast. -/
theorem joinChannel_not_found (faults : MemberFaults) (env : Env) (socket : Socket)
    (s : ServerState) :
    (∀ c, faults.findById = false → findChannel s.db.channels c = none →
      joinChannel faults env socket (some c) s =
        (s, [Emit.error socket.id "Channel not found"])) ∧
    joinChannel faults env socket none s =
      (s, [Emit.error socket.id "Failed to join channel"]) := by
  refine ⟨?_, rfl⟩
  intro c hfind hnone
  simp [joinChannel, hfind, hnone]

/-- Witness of C16 as amended: user 1 asks to join channel 99 of the example
state. -/
theorem joinChannel_not_found_witness :
    (noMemberFaults.findById = false ∧ findChannel exampleState.db.channels 99 = none) ∧
    joinChannel noMemberFaults exampleEnv annSocket (some 99) exampleState =
      (exampleState, [Emit.error annSocket.id "Channel not found"]) :=
  ⟨⟨rfl, by decide⟩,
    (joinChannel_not_found noMemberFaults exampleEnv annSocket exampleState).1 99 rfl
      (by decide)⟩

/-- Counterexample to C15: the text `hi` sent, and posted, to the channel id
99, which names no channel of the example state, is stored as a message. -/
theorem message_without_channel_counterexample :
    findChannel exampleState.db.channels 99 = none ∧
    (sendMessage xssPlain noSendFaults exampleEnv annSocket
        { channelId := some 99, content := some "hi", type := none } exampleState).1.db.messages =
      [{ _id := 500, channel := 99, sender := 1, content := "hi", type := "text",
         createdAt := 1000, edited := false }] ∧
    (postMessage xssPlain noSendFaults exampleEnv 1 (some 99) (some "hi") none
        exampleState.db).1.messages =
      [{ _id := 500, channel := 99, sender := 1, content := "hi", type := "text",
         createdAt := 1000, edited := false }] := by
  decide

/-- Claim C15 as amended: for a channel id that cannot be cast to an
`ObjectId`, neither `sendMessage` nor `postMessage` creates a message; for a
well-formed id that names no channel, both create the message when the content
is accepted and the store does not fail, and the `channels` collection is left
as it was. -/
theorem message_channel_reference (xss : String → String) (faults : SendFaults) (env : Env)
    (socket : Socket) (ev : SendEvent) (s : ServerState) (userId c : Nat)
    (content type : Option String) :
    (ev.channelId = none →
      (sendMessage xss faults env socket ev s).1.db.messages = s.db.messages) ∧
    ((postMessage xss faults env userId none content type s.db).1.messages = s.db.messages) ∧
    (findChannel s.db.channels c = none → ev.channelId = some c →
      ¬ (jsTrim (xss (ev.content.getD "")) = "" ∧ ev.type.getD "text" = "text") →
      (sendMessage xss noSendFaults env socket ev s).1.db.messages =
        s.db.messages ++ [sentMessage xss env socket ev c] ∧
      (sendMessage xss noSendFaults env socket ev s).1.db.channels = s.db.channels) ∧
    (findChannel s.db.channels c = none → sanitizeText xss content ≠ "" →
      (postMessage xss noSendFaults env userId (some c) content type s.db).1.messages =
        s.db.messages ++ [postedMessage xss env userId content type c] ∧
      (postMessage xss noSendFaults env userId (some c) content type s.db).1.channels =
        s.db.channels) := by
  refine ⟨?_, ?_, ?_, ?_⟩
  · intro hc
    unfold sendMessage
    simp only [hc]
    split <;> rfl
  · unfold postMessage
    simp only []
    split <;> rfl
  · intro hnone hc hnot
    obtain ⟨hm, hch, _, _⟩ := sendMessage_success xss env socket ev s c hnot hc
    refine ⟨hm, ?_⟩
    rw [hch]
    exact updateChannel_of_not_found _ c _ hnone
  · intro hnone hne
    obtain ⟨hm, hch, _⟩ := postMessage_success xss env userId (some c) content type s.db c hne rfl
    refine ⟨hm, ?_⟩
    rw [hch]
    exact updateChannel_of_not_found _ c _ hnone

/-- Witness of C15 as amended, on the example state. -/
theorem message_channel_reference_witness :
    ((sendMessage xssPlain noSendFaults exampleEnv annSocket
        { channelId := none, content := some "hi", type := none } exampleState).1.db.messages =
      exampleState.db.messages) ∧
    ((sendMessage xssPlain noSendFaults exampleEnv annSocket
        { channelId := some 99, content := some "hi", type := none } exampleState).1.db.messages =
        exampleState.db.messages ++ [sentMessage xssPlain exampleEnv annSocket
          { channelId := some 99, content := some "hi", type := none } 99] ∧
      (sendMessage xssPlain noSendFaults exampleEnv annSocket
        { channelId := some 99, content := some "hi", type := none } exampleState).1.db.channels =
        exampleState.db.channels) :=
  ⟨(message_channel_reference xssPlain noSendFaults exampleEnv annSocket
      { channelId := none, content := some "hi", type := none } exampleState 1 99
      (some "hi") none).1 rfl,
   (message_channel_reference xssPlain noSendFaults exampleEnv annSocket
      { channelId := some 99, content := some "hi", type := none } exampleState 1 99
      (some "hi") none).2.2.1 (by decide) rfl (by decide)⟩

/-! ### The HTTP fallback and the realtime path -/

/-- Counterexample to C17: for the type `file` and no content `sendMessage`
stores a message and `postMessage` answers 400 and stores none; for the empty
type and the content `hi` the stored types are `""` and `"text"`. -/
theorem fallback_counterexample :
    (sendMessage xssPlain noSendFaults exampleEnv annSocket
        { channelId := some 7, content := none, type := some "file" }
        exampleState).1.db.messages =
      [{ _id := 500, channel := 7, sender := 1, content := "", type := "file",
         createdAt := 1000, edited := false }] ∧
    postMessage xssPlain noSendFaults exampleEnv 1 (some 7) none (some "file")
        exampleState.db = (exampleState.db, .contentRequired) ∧
    ((sendMessage xssPlain noSendFaults exampleEnv annSocket
        { channelId := some 7, content := some "hi", type := some "" }
        exampleState).1.db.messages.map (fun m => m.type)) = [""] ∧
    ((postMessage xssPlain noSendFaults exampleEnv 1 (some 7) (some "hi") (some "")
        exampleState.db).1.messages.map (fun m => m.type)) = ["text"] := by
  decide

/-- Claim C17 as amended: `postMessage` creates a message exactly when the
trimmed and sanitised content is not empty and the creation does not throw,
whatever the type, and stores the content `xss(trim(content))` and the type
`type || 'text'`; `sendMessage` creates one exactly when the sanitised and
trimmed content is not empty or the type is not `text`, and the creation does
not throw, and stores the content `trim(xss(content))` and the given type
(`text` when absent).  When the type is absent or `text` and sanitising
commutes with trimming on the content, the two leave the same store for the
same sender, channel, environment and store failures: same message, same
`lastMessageAt` update, same activity record.  Without store failures the
activity snippet is the first 200 UTF-16 code units of the stored content in
both. -/
theorem postMessage_vs_sendMessage (xss : String → String) (faults : SendFaults) (env : Env)
    (socket : Socket) (c : Nat) (content type : Option String) (s : ServerState) :
    ((postMessage xss faults env socket.userId (some c) content type s.db).1.messages =
      if sanitizeText xss content ≠ "" ∧ faults.messageCreate = false
      then s.db.messages ++ [postedMessage xss env socket.userId content type c]
      else s.db.messages) ∧
    ((postedMessage xss env socket.userId content type c).content =
        xss (jsTrim (content.getD "")) ∧
      (postedMessage xss env socket.userId content type c).type =
        (if type = none ∨ type = some "" then "text" else type.getD "text") ∧
      (postedMessage xss env socket.userId content type c).channel = c ∧
      (postedMessage xss env socket.userId content type c).sender = socket.userId) ∧
    ((sendMessage xss faults env socket
        { channelId := some c, content := content, type := type } s).1.db.messages =
      if ¬ (jsTrim (xss (content.getD "")) = "" ∧ type.getD "text" = "text") ∧
        faults.messageCreate = false
      then s.db.messages ++ [sentMessage xss env socket
        { channelId := some c, content := content, type := type } c]
      else s.db.messages) ∧
    ((sentMessage xss env socket
        { channelId := some c, content := content, type := type } c).content =
        jsTrim (xss (content.getD "")) ∧
      (sentMessage xss env socket
        { channelId := some c, content := content, type := type } c).type =
        type.getD "text" ∧
      (sentMessage xss env socket
        { channelId := some c, content := content, type := type } c).channel = c ∧
      (sentMessage xss env socket
        { channelId := some c, content := content, type := type } c).sender = socket.userId) ∧
    ((type = none ∨ type = some "text") →
      jsTrim (xss (content.getD "")) = xss (jsTrim (content.getD "")) →
      (postMessage xss faults env socket.userId (some c) content type s.db).1 =
        (sendMessage xss faults env socket
          { channelId := some c, content := content, type := type } s).1.db) ∧
    (sanitizeText xss content ≠ "" →
      (postMessage xss noSendFaults env socket.userId (some c) content type s.db).1.activities =
        s.db.activities ++ [messageActivity env socket.userId c
          (postedMessage xss env socket.userId content type c).content]) ∧
    (¬ (jsTrim (xss (content.getD "")) = "" ∧ type.getD "text" = "text") →
      (sendMessage xss noSendFaults env socket
        { channelId := some c, content := content, type := type } s).1.db.activities =
        s.db.activities ++ [messageActivity env socket.userId c
          (sentMessage xss env socket
            { channelId := some c, content := content, type := type } c).content]) ∧
    (∀ stored : String, (messageActivity env socket.userId c stored).payload =
      .snippet env.messageId ((toUtf16 stored).take 200)) := by
  obtain ⟨f1, f2, f3⟩ := faults
  refine ⟨?_, ⟨rfl, ?_, rfl, rfl⟩, ?_, ⟨rfl, rfl, rfl, rfl⟩, ?_, ?_, ?_, fun _ => rfl⟩
  · by_cases hne : sanitizeText xss content = ""
    · simp [postMessage, hne]
    · cases f1 <;> cases f2 <;> cases f3 <;>
        simp [postMessage, hne, setLastMessageAt, postedMessage]
  · cases type with
    | none => simp [postedMessage, orText]
    | some t => by_cases ht : t = "" <;> simp [postedMessage, orText, ht]
  · by_cases hempty : jsTrim (xss (content.getD "")) = "" ∧ type.getD "text" = "text"
    · simp only [sendMessage, if_pos hempty]
      simp [hempty]
    · simp only [sendMessage, if_neg hempty]
      cases f1 <;> cases f2 <;> cases f3 <;> simp [hempty, setLastMessageAt, sentMessage]
  · intro htype hcomm
    have h1 : type.getD "text" = "text" := by rcases htype with h | h <;> simp [h]
    have h2 : orText type = "text" := by rcases htype with h | h <;> simp [h, orText]
    have h3 : sanitizeText xss content = jsTrim (xss (content.getD "")) := by
      rw [hcomm]; rfl
    by_cases hempty : jsTrim (xss (content.getD "")) = ""
    · simp [postMessage, sendMessage, h1, h3, hempty]
    · cases f1 <;> cases f2 <;> cases f3 <;>
        simp [postMessage, sendMessage, h1, h2, h3, hempty, setLastMessageAt]
  · intro hne
    simp [postMessage, hne, noSendFaults, setLastMessageAt, postedMessage, messageActivity]
  · intro hnot
    simp only [sendMessage, if_neg hnot]
    simp [noSendFaults, setLastMessageAt, sentMessage, messageActivity]

/-- Witness of C17 as amended: the text ` hello ` for channel 7. -/
theorem postMessage_vs_sendMessage_witness :
    ((none : Option String) = none ∨ (none : Option String) = some "text") ∧
    jsTrim (xssPlain ((some " hello " : Option String).getD "")) =
      xssPlain (jsTrim ((some " hello " : Option String).getD "")) ∧
    (postMessage xssPlain noSendFaults exampleEnv annSocket.userId (some 7) (some " hello ")
        none exampleState.db).1 =
      (sendMessage xssPlain noSendFaults exampleEnv annSocket
        { channelId := some 7, content := some " hello ", type := none } exampleState).1.db :=
  ⟨Or.inl rfl, rfl,
    (postMessage_vs_sendMessage xssPlain noSendFaults exampleEnv annSocket 7 (some " hello ")
      none exampleState).2.2.2.2.1 (Or.inl rfl) rfl⟩

set_option maxRecDepth 100000 in
/-- The snippet of 150 characters outside the basic plane has 200 code units:
100 characters. -/
theorem jsSlice_surrogates :
    (jsSlice 200 ⟨List.replicate 150 (Char.ofNat 0x1F600)⟩).length = 200 ∧
    jsSlice 4 ⟨List.replicate 150 (Char.ofNat 0x1F600)⟩ = [0xD83D, 0xDE00, 0xD83D, 0xDE00] := by
  decide

/-! ### Lookups after updates -/

theorem findChannel_updateChannel_ne (f : Channel → Channel) (hf : ∀ ch, (f ch)._id = ch._id)
    (c c1 : Nat) (hne : c1 ≠ c) (chs : List Channel) :
    findChannel (updateChannel f c chs) c1 = findChannel chs c1 := by
  induction chs with
  | nil => rfl
  | cons x xs ih =>
    by_cases hx : x._id = c
    · have hx1 : ¬ x._id = c1 := fun h => hne (h ▸ hx)
      have hc : ¬ c = c1 := fun h => hne h.symm
      simp [findChannel, updateChannel, hx, hf, hc]
    · simp [findChannel, updateChannel, hx, ih]

theorem findUser_updateUser (f : User → User) (hf : ∀ u, (f u)._id = u._id)
    (u : Nat) (us : List User) :
    findUser (updateUser f u us) u = (findUser us u).map f := by
  induction us with
  | nil => rfl
  | cons x xs ih =>
    by_cases hx : x._id = u
    · simp [findUser, updateUser, hx, hf]
    · simp [findUser, updateUser, hx, ih]

theorem findUser_updateUser_ne (f : User → User) (hf : ∀ u, (f u)._id = u._id)
    (u u1 : Nat) (hne : u1 ≠ u) (us : List User) :
    findUser (updateUser f u us) u1 = findUser us u1 := by
  induction us with
  | nil => rfl
  | cons x xs ih =>
    by_cases hx : x._id = u
    · have hx1 : ¬ x._id = u1 := fun h => hne (h ▸ hx)
      have hc : ¬ u = u1 := fun h => hne h.symm
      simp [findUser, updateUser, hx, hf, hc]
    · simp [findUser, updateUser, hx, ih]

theorem findChannel_append (chs : List Channel) (ch : Channel) (c : Nat) :
    findChannel (chs ++ [ch]) c =
      match findChannel chs c with
      | some x => some x
      | none => if ch._id = c then some ch else none := by
  induction chs with
  | nil => simp [findChannel]
  | cons x xs ih =>
    by_cases hx : x._id = c
    · simp [findChannel, hx]
    · simp [findChannel, hx, ih]

theorem findUser_append (us : List User) (usr : User) (u : Nat) :
    findUser (us ++ [usr]) u =
      match findUser us u with
      | some x => some x
      | none => if usr._id = u then some usr else none := by
  induction us with
  | nil => simp [findUser]
  | cons x xs ih =>
    by_cases hx : x._id = u
    · simp [findUser, hx]
    · simp [findUser, hx, ih]

theorem isMember_congr (db1 db2 : Store) (h : db1.channels = db2.channels) (u c : Nat) :
    isMember db1 u c ↔ isMember db2 u c := by
  simp [isMember, h]

theorem listsChannel_congr (db1 db2 : Store) (h : db1.users = db2.users) (u c : Nat) :
    listsChannel db1 u c ↔ listsChannel db2 u c := by
  simp [listsChannel, h]

theorem findChannel_setMembers (c : Nat) (ms : List Nat) (db : Store) (c1 : Nat) :
    findChannel (setMembers c ms db).channels c1 =
      if c1 = c then (findChannel db.channels c).map (fun ch => { ch with members := ms })
      else findChannel db.channels c1 := by
  by_cases hc : c1 = c
  · subst hc
    simp only [setMembers, if_true]
    exact findChannel_updateChannel (fun ch => { ch with members := ms }) (fun _ => rfl) c1 _
  · simp only [setMembers, if_neg hc]
    exact findChannel_updateChannel_ne (fun ch => { ch with members := ms }) (fun _ => rfl)
      c c1 hc _

theorem findUser_updateUserChannels (f : List Nat → List Nat) (a : Nat) (db : Store)
    (u : Nat) :
    findUser (updateUserChannels f a db).users u =
      if u = a then (findUser db.users a).map (fun usr => { usr with channels := f usr.channels })
      else findUser db.users u := by
  by_cases hu : u = a
  · subst hu
    simp only [updateUserChannels, if_true]
    exact findUser_updateUser (fun usr => { usr with channels := f usr.channels })
      (fun _ => rfl) u _
  · simp only [updateUserChannels, if_neg hu]
    exact findUser_updateUser_ne (fun usr => { usr with channels := f usr.channels })
      (fun _ => rfl) a u hu _

theorem isMember_setMembers (c : Nat) (ms : List Nat) (db : Store) (u c1 : Nat) :
    isMember (setMembers c ms db) u c1 ↔
      (c1 = c ∧ (findChannel db.channels c).isSome = true ∧ u ∈ ms) ∨
      (c1 ≠ c ∧ isMember db u c1) := by
  simp only [isMember, findChannel_setMembers]
  by_cases hc : c1 = c
  · subst hc
    cases hch : findChannel db.channels c1 <;> simp
  · simp [hc]

theorem listsChannel_updateUserChannels (f : List Nat → List Nat) (a : Nat) (db : Store)
    (u c : Nat) :
    listsChannel (updateUserChannels f a db) u c ↔
      (u = a ∧ ∃ usr, findUser db.users a = some usr ∧ c ∈ f usr.channels) ∨
      (u ≠ a ∧ listsChannel db u c) := by
  simp only [listsChannel, findUser_updateUserChannels]
  by_cases hu : u = a
  · subst hu
    cases hus : findUser db.users u <;> simp
  · simp [hu]

theorem isMember_touchChannel (c t : Nat) (db : Store) (u c1 : Nat) :
    isMember { db with channels := touchChannel c t db.channels } u c1 ↔ isMember db u c1 := by
  by_cases hc : c1 = c
  · subst hc
    simp only [isMember]
    rw [findChannel_touchChannel]
    cases hch : findChannel db.channels c1 <;> simp
  · simp only [isMember, touchChannel]
    rw [findChannel_updateChannel_ne (fun ch => { ch with lastMessageAt := some t })
      (fun _ => rfl) c c1 hc]

/-! ### Effect of the handlers on membership -/

/-- Store and rooms after a run of `joinChannel` that sends no `error`. -/
theorem joinChannel_effect (faults : MemberFaults) (env : Env) (socket : Socket)
    (channelId : Option Nat) (s : ServerState)
    (hok : ∀ e ∈ (joinChannel faults env socket channelId s).2, e.isError = false) :
    ∃ c ch, channelId = some c ∧ findChannel s.db.channels c = some ch ∧
      (joinChannel faults env socket channelId s).1.db.channels =
        (if socket.userId ∈ ch.members then s.db
          else setMembers c (ch.members ++ [socket.userId]) s.db).channels ∧
      (joinChannel faults env socket channelId s).1.db.users =
        (updateUserChannels (addToSet c) socket.userId s.db).users ∧
      (joinChannel faults env socket channelId s).1.rooms = joinRoom socket.id c s.rooms := by
  cases channelId with
  | none => simp [joinChannel, Emit.isError] at hok
  | some c =>
    obtain ⟨f1, f2, f3, f4⟩ := faults
    cases hch : findChannel s.db.channels c with
    | none => cases f1 <;> simp [joinChannel, hch, Emit.isError] at hok
    | some ch =>
      refine ⟨c, ch, rfl, hch, ?_⟩
      by_cases hmem : socket.userId ∈ ch.members <;>
        cases f1 <;> cases f2 <;> cases f3 <;> cases f4 <;>
        simp [joinChannel, hch, hmem, Emit.isError] at hok ⊢ <;>
        simp [updateUserChannels, setMembers]

/-- Store and rooms after a run of `leaveChannel` that sends no `error`. -/
theorem leaveChannel_effect (faults : MemberFaults) (env : Env) (socket : Socket)
    (channelId : Option Nat) (s : ServerState)
    (hok : ∀ e ∈ (leaveChannel faults env socket channelId s).2, e.isError = false) :
    ∃ c, channelId = some c ∧
      (leaveChannel faults env socket channelId s).1.db.channels =
        (match findChannel s.db.channels c with
          | none => s.db
          | some ch => setMembers c (ch.members.filter (fun m => m ≠ socket.userId)) s.db).channels ∧
      (leaveChannel faults env socket channelId s).1.db.users =
        (updateUserChannels (pull c) socket.userId s.db).users ∧
      (leaveChannel faults env socket channelId s).1.rooms = leaveRoom socket.id c s.rooms := by
  cases channelId with
  | none => simp [leaveChannel, Emit.isError] at hok
  | some c =>
    obtain ⟨f1, f2, f3, f4⟩ := faults
    refine ⟨c, rfl, ?_⟩
    cases hch : findChannel s.db.channels c <;>
      cases f1 <;> cases f2 <;> cases f3 <;> cases f4 <;>
      simp [leaveChannel, hch, Emit.isError] at hok ⊢ <;>
      simp [updateUserChannels, setMembers]

/-- Durable membership and channels lists after a `joinChannel` without
`error`: the pair (identity, channel) of the event is added to both. -/
theorem joinChannel_observe (faults : MemberFaults) (env : Env) (socket : Socket)
    (channelId : Option Nat) (s : ServerState)
    (hok : ∀ e ∈ (joinChannel faults env socket channelId s).2, e.isError = false) :
    ∃ c, channelId = some c ∧
      (∀ u1 c1, isMember (joinChannel faults env socket channelId s).1.db u1 c1 ↔
        isMember s.db u1 c1 ∨ (u1 = socket.userId ∧ c1 = c)) ∧
      (∀ u1 c1, listsChannel (joinChannel faults env socket channelId s).1.db u1 c1 ↔
        listsChannel s.db u1 c1 ∨
          (u1 = socket.userId ∧ c1 = c ∧ (findUser s.db.users socket.userId).isSome = true)) ∧
      (joinChannel faults env socket channelId s).1.rooms = joinRoom socket.id c s.rooms := by
  obtain ⟨c, ch, hc, hch, hchs, hus, hrooms⟩ := joinChannel_effect faults env socket channelId s hok
  refine ⟨c, hc, ?_, ?_, hrooms⟩
  · intro u1 c1
    by_cases hmem : socket.userId ∈ ch.members
    · rw [if_pos hmem] at hchs
      rw [isMember_congr _ _ hchs]
      constructor
      · exact Or.inl
      · rintro (h | ⟨rfl, rfl⟩)
        · exact h
        · exact ⟨ch, hch, hmem⟩
    · rw [if_neg hmem] at hchs
      rw [isMember_congr _ _ hchs, isMember_setMembers]
      by_cases hc1 : c1 = c
      · subst hc1
        simp only [isMember, hch, Option.some.injEq, exists_eq_left', Option.isSome_some,
          List.mem_append, List.mem_singleton, true_and, ne_eq, not_true_eq_false, false_and,
          or_false, and_true]
      · simp [hc1]
  · intro u1 c1
    rw [listsChannel_congr _ _ hus, listsChannel_updateUserChannels]
    by_cases hu1 : u1 = socket.userId
    · subst hu1
      cases hfu : findUser s.db.users socket.userId with
      | none => simp [listsChannel, hfu]
      | some usr =>
        simp only [listsChannel, hfu, Option.some.injEq, exists_eq_left', true_and, ne_eq,
          not_true_eq_false, false_and, or_false, Option.isSome_some, and_true, addToSet]
        by_cases hin : c ∈ usr.channels
        · simp only [if_pos hin]
          constructor
          · exact Or.inl
          · rintro (h | rfl)
            · exact h
            · exact hin
        · simp [if_neg hin]
    · simp [hu1]

/-- Durable membership and channels lists after a `leaveChannel` without
`error`: the pair (identity, channel) of the event is removed from both. -/
theorem leaveChannel_observe (faults : MemberFaults) (env : Env) (socket : Socket)
    (channelId : Option Nat) (s : ServerState)
    (hok : ∀ e ∈ (leaveChannel faults env socket channelId s).2, e.isError = false) :
    ∃ c, channelId = some c ∧
      (∀ u1 c1, isMember (leaveChannel faults env socket channelId s).1.db u1 c1 ↔
        isMember s.db u1 c1 ∧ ¬ (u1 = socket.userId ∧ c1 = c)) ∧
      (∀ u1 c1, listsChannel (leaveChannel faults env socket channelId s).1.db u1 c1 ↔
        listsChannel s.db u1 c1 ∧ ¬ (u1 = socket.userId ∧ c1 = c)) ∧
      (leaveChannel faults env socket channelId s).1.rooms = leaveRoom socket.id c s.rooms := by
  obtain ⟨c, hc, hchs, hus, hrooms⟩ := leaveChannel_effect faults env socket channelId s hok
  refine ⟨c, hc, ?_, ?_, hrooms⟩
  · intro u1 c1
    rw [isMember_congr _ _ hchs]
    cases hch : findChannel s.db.channels c with
    | none =>
      simp only []
      constructor
      · intro h
        refine ⟨h, ?_⟩
        rintro ⟨_, rfl⟩
        obtain ⟨ch, hch1, _⟩ := h
        rw [hch] at hch1
        cases hch1
      · exact fun h => h.1
    | some ch =>
      simp only []
      rw [isMember_setMembers]
      by_cases hc1 : c1 = c
      · subst hc1
        simp only [isMember, hch, Option.some.injEq, exists_eq_left', Option.isSome_some,
          List.mem_filter, true_and, ne_eq, not_true_eq_false, false_and, or_false, and_true,
          decide_eq_true_eq]
      · simp [hc1]
  · intro u1 c1
    rw [listsChannel_congr _ _ hus, listsChannel_updateUserChannels]
    by_cases hu1 : u1 = socket.userId
    · subst hu1
      cases hfu : findUser s.db.users socket.userId with
      | none => simp [listsChannel, hfu]
      | some usr =>
        simp only [listsChannel, hfu, Option.some.injEq, exists_eq_left', true_and, ne_eq,
          not_true_eq_false, false_and, or_false, pull, List.mem_filter, decide_eq_true_eq]
    · simp [hu1]

theorem listsChannel_addToSet (c a : Nat) (db : Store) (u1 c1 : Nat) :
    listsChannel (updateUserChannels (addToSet c) a db) u1 c1 ↔
      listsChannel db u1 c1 ∨ (u1 = a ∧ c1 = c ∧ (findUser db.users a).isSome = true) := by
  rw [listsChannel_updateUserChannels]
  by_cases hu1 : u1 = a
  · subst hu1
    cases hfu : findUser db.users u1 with
    | none => simp [listsChannel, hfu]
    | some usr =>
      simp only [listsChannel, hfu, Option.some.injEq, exists_eq_left', true_and, ne_eq,
        not_true_eq_false, false_and, or_false, Option.isSome_some, and_true, addToSet]
      by_cases hin : c ∈ usr.channels
      · simp only [if_pos hin]
        constructor
        · exact Or.inl
        · rintro (h | rfl)
          · exact h
          · exact hin
      · simp [if_neg hin]
  · simp [hu1]

/-- Durable membership and channels lists after a `createChannel` that does
not answer 500: nothing changes, or the pair (creator, new channel) is added to
both. -/
theorem createChannel_observe (xss : String → String) (faults : CreateFaults)
    (newId userId : Nat) (name : Option String) (db : Store)
    (hok : (createChannel xss faults newId userId name db).2 ≠ .serverError) :
    (createChannel xss faults newId userId name db).1 = db ∨
    ((∀ u1 c1, isMember (createChannel xss faults newId userId name db).1 u1 c1 ↔
        isMember db u1 c1 ∨ (u1 = userId ∧ c1 = newId)) ∧
      (∀ u1 c1, listsChannel (createChannel xss faults newId userId name db).1 u1 c1 ↔
        listsChannel db u1 c1 ∨
          (u1 = userId ∧ c1 = newId ∧ (findUser db.users userId).isSome = true)) ∧
      findChannel db.channels newId = none) := by
  unfold createChannel at hok ⊢
  cases name with
  | none => exact Or.inl rfl
  | some name =>
    simp only [] at hok ⊢
    split
    · exact Or.inl rfl
    · split
      · exact Or.inl rfl
      · split
        · exact Or.inl rfl
        · split
          · exact Or.inl rfl
          · rename_i hname hfind hexists hcreate
            split
            · rename_i hupd
              simp [hname, hfind, hexists, hcreate, hupd] at hok
            · right
              have hfresh : findChannel db.channels newId = none := by
                cases hf : findChannel db.channels newId with
                | none => rfl
                | some x => exact absurd (Or.inr (Or.inr (by simp [hf]))) hcreate
              refine ⟨?_, ?_, hfresh⟩
              · intro u1 c1
                rw [isMember_congr _
                  { db with channels := db.channels ++
                    [{ _id := newId, name := xss (jsTrim name), members := [userId],
                       lastMessageAt := none }] } (by simp [updateUserChannels])]
                simp only [isMember, findChannel_append]
                cases hc1 : findChannel db.channels c1 with
                | some x =>
                  have hne : c1 ≠ newId := by
                    intro h
                    rw [h, hfresh] at hc1
                    cases hc1
                  simp [hne]
                | none =>
                  by_cases hid : newId = c1
                  · simp [hid, eq_comm]
                  · have hid2 : ¬ c1 = newId := fun h => hid h.symm
                    simp [hid, hid2]
              · intro u1 c1
                rw [listsChannel_addToSet]
                rfl

/-- Channels lists are not affected by a registration. -/
theorem listsChannel_createUser (newId : Nat) (name : String) (db : Store) (u c : Nat) :
    listsChannel (createUser newId name db) u c ↔ listsChannel db u c := by
  simp only [listsChannel, createUser, findUser_append]
  cases hfu : findUser db.users u with
  | some usr => simp
  | none =>
    by_cases hid : newId = u <;> simp [hid]

theorem mem_joinRoom (socketId c : Nat) (rooms : List (Nat × Nat)) (r : Nat × Nat) :
    r ∈ joinRoom socketId c rooms ↔ r ∈ rooms ∨ r = (socketId, c) := by
  unfold joinRoom
  split
  · rename_i h
    constructor
    · exact Or.inl
    · rintro (h1 | rfl)
      · exact h1
      · exact h
  · simp

theorem mem_leaveRoom (socketId c : Nat) (rooms : List (Nat × Nat)) (r : Nat × Nat) :
    r ∈ leaveRoom socketId c rooms ↔ r ∈ rooms ∧ r ≠ (socketId, c) := by
  simp [leaveRoom]

theorem mem_autoJoin (socketId : Nat) (user : Option User) (rooms : List (Nat × Nat))
    (r : Nat × Nat) :
    r ∈ autoJoin socketId user rooms ↔
      r ∈ rooms ∨ (r.1 = socketId ∧ ∃ usr, user = some usr ∧ r.2 ∈ usr.channels) := by
  cases user with
  | none => simp [autoJoin]
  | some usr =>
    simp only [autoJoin, Option.some.injEq, exists_eq_left']
    generalize usr.channels = l
    induction l generalizing rooms with
    | nil => simp
    | cons x xs ih =>
      rw [List.foldl_cons, ih, mem_joinRoom]
      obtain ⟨r1, r2⟩ := r
      simp only [Prod.mk.injEq, List.mem_cons]
      constructor
      · rintro ((h | ⟨h1, h2⟩) | ⟨h1, h2⟩)
        · exact Or.inl h
        · exact Or.inr ⟨h1, Or.inl h2⟩
        · exact Or.inr ⟨h1, Or.inr h2⟩
      · rintro (h | ⟨h1, h2 | h2⟩)
        · exact Or.inl (Or.inl h)
        · exact Or.inl (Or.inr ⟨h1, h2⟩)
        · exact Or.inr ⟨h1, h2⟩

/-! ### Auto-rejoin and durable membership -/

theorem reachable_consistent (xss : String → String) (s : ServerState)
    (hreach : Reachable xss s) : MembershipConsistent s.db := by
  induction hreach with
  | empty =>
    intro u c
    simp [listsChannel, isMember, emptyStore, findUser, findChannel]
  | register s newId name _ _ ih =>
    intro u c
    rw [listsChannel_createUser, isMember_congr (createUser newId name s.db) s.db rfl]
    exact ih u c
  | createChannel s faults newId userId name _ hreg hok ih =>
    intro u c
    rcases createChannel_observe xss faults newId userId name s.db hok with h | ⟨hm, hl, _⟩
    · simp only [h]
      exact ih u c
    · simp only [hm, hl, hreg, and_true]
      rw [ih u c]
  | joinChannel s faults env socket channelId _ hreg hok ih =>
    intro u c
    obtain ⟨c0, _, hm, hl, _⟩ := joinChannel_observe faults env socket channelId s hok
    rw [hm, hl]
    simp only [hreg, and_true]
    rw [ih u c]
  | leaveChannel s faults env socket channelId _ _ hok ih =>
    intro u c
    obtain ⟨c0, _, hm, hl, _⟩ := leaveChannel_observe faults env socket channelId s hok
    rw [hm, hl, ih u c]

/-- Claim C11: in every state reachable from the empty store by registrations
and by `createChannel`, `joinChannel` and `leaveChannel` runs without error of
registered identities, the `channels` list of the user document of `u`
contains `c` exactly when `u` is in the members list of `c`; a new connection
of `u` is put by the connection handler into the room of `c` exactly when `u`
is a durable member of `c`; and the agreement still holds after each of the
three operations. -/
theorem autojoin_matches_membership (xss : String → String)
    (verify : String → Option TokenPayload) (s : ServerState) (hreach : Reachable xss s) :
    MembershipConsistent s.db ∧
    (∀ (token : Option String) (payload : TokenPayload) (socketId c : Nat)
        (conns : List Socket),
      authenticate verify token = .ok payload → (∀ c1, (socketId, c1) ∉ s.rooms) →
      ((socketId, c) ∈ (connect verify token true false socketId
          { server := s, conns := conns }).1.server.rooms ↔
        isMember s.db payload.id c)) ∧
    (∀ (faults : CreateFaults) (newId userId : Nat) (name : Option String),
      (findUser s.db.users userId).isSome = true →
      (createChannel xss faults newId userId name s.db).2 ≠ .serverError →
      MembershipConsistent (createChannel xss faults newId userId name s.db).1) ∧
    (∀ (faults : MemberFaults) (env : Env) (socket : Socket) (channelId : Option Nat),
      (findUser s.db.users socket.userId).isSome = true →
      (∀ e ∈ (joinChannel faults env socket channelId s).2, e.isError = false) →
      MembershipConsistent (joinChannel faults env socket channelId s).1.db) ∧
    (∀ (faults : MemberFaults) (env : Env) (socket : Socket) (channelId : Option Nat),
      (findUser s.db.users socket.userId).isSome = true →
      (∀ e ∈ (leaveChannel faults env socket channelId s).2, e.isError = false) →
      MembershipConsistent (leaveChannel faults env socket channelId s).1.db) := by
  have hcons := reachable_consistent xss s hreach
  refine ⟨hcons, ?_, ?_, ?_, ?_⟩
  · intro token payload socketId c conns hauth hfresh
    simp only [connect, hauth, Bool.not_true, Bool.false_eq_true, if_false]
    rw [mem_autoJoin, ← hcons payload.id c]
    simp only [hfresh c, false_or, true_and]
    rfl
  · intro faults newId userId name hreg hok
    exact reachable_consistent xss _ (Reachable.createChannel s faults newId userId name hreach hreg hok)
  · intro faults env socket channelId hreg hok
    exact reachable_consistent xss _ (Reachable.joinChannel s faults env socket channelId hreach hreg hok)
  · intro faults env socket channelId hreg hok
    exact reachable_consistent xss _ (Reachable.leaveChannel s faults env socket channelId hreach hreg hok)

/-- Witness of C11: user 1 registers, creates channel 7 and connects. -/
theorem autojoin_matches_membership_witness :
    Reachable xssPlain reachedState ∧ MembershipConsistent reachedState.db ∧
    ((11, 7) ∈ (connect exampleVerify (some "ann-token") true false 11
        { server := reachedState, conns := [] }).1.server.rooms ↔
      isMember reachedState.db 1 7) :=
  have hreach : Reachable xssPlain reachedState :=
    Reachable.createChannel { db := createUser 1 "ann" emptyStore, rooms := [] }
      noCreateFaults 7 1 (some "general")
      (Reachable.register { db := emptyStore, rooms := [] } 1 "ann" Reachable.empty rfl)
      (by decide) (by decide)
  ⟨hreach, (autojoin_matches_membership xssPlain exampleVerify reachedState hreach).1,
    (autojoin_matches_membership xssPlain exampleVerify reachedState hreach).2.1
      (some "ann-token") { id := 1, email := "ann@example.org", name := "ann" } 11 7 [] rfl
      (by intro c1; simp [reachedState])⟩

/-! ### Live roster and durable membership -/

/-- Counterexample to C14: user 1, a member of channel 7, has the connections
11 and 13, both put into the room of channel 7 by the handshake; after
`leaveChannel` on connection 11, which sends no `error`, connection 13 is still
in the room and user 1 is no longer a member. -/
theorem roster_counterexample :
    annSocket ∈ (connect exampleVerify (some "ann-token") true false 13
      (connect exampleVerify (some "ann-token") true false 11 exampleWorld).1).1.conns ∧
    (∀ e ∈ (dispatch xssPlain exampleEnv annSocket (.leaveChannel noMemberFaults (some 7))
      (connect exampleVerify (some "ann-token") true false 13
        (connect exampleVerify (some "ann-token") true false 11 exampleWorld).1).1).2.emits,
      e.isError = false) ∧
    (13, 7) ∈ twoConnectionsWorld.server.rooms ∧
    twoConnectionsWorld.conns =
      [annSocket, { id := 13, userId := 1, userName := "ann" }] ∧
    membersOf twoConnectionsWorld.server.db 7 = some [] ∧
    ¬ RosterWithinMembership twoConnectionsWorld := by
  have hrooms : (13, 7) ∈ twoConnectionsWorld.server.rooms := by decide
  have hmembers : membersOf twoConnectionsWorld.server.db 7 = some [] := by decide
  refine ⟨by decide, by decide, hrooms, by decide, hmembers, ?_⟩
  intro h
  obtain ⟨conn, _, _, ch, hch, hmem⟩ := h 13 7 hrooms
  simp only [membersOf, hch, Option.map_some', Option.some.injEq] at hmembers
  rw [hmembers] at hmem
  cases hmem

/-- Membership, channels lists and rooms after a `sendMessage` without
`error` are as before. -/
theorem sendMessage_observe (xss : String → String) (faults : SendFaults) (env : Env)
    (socket : Socket) (ev : SendEvent) (s : ServerState)
    (hok : ∀ e ∈ (sendMessage xss faults env socket ev s).2, e.isError = false) :
    (∀ u1 c1, isMember (sendMessage xss faults env socket ev s).1.db u1 c1 ↔
      isMember s.db u1 c1) ∧
    (∀ u1 c1, listsChannel (sendMessage xss faults env socket ev s).1.db u1 c1 ↔
      listsChannel s.db u1 c1) ∧
    (sendMessage xss faults env socket ev s).1.rooms = s.rooms := by
  obtain ⟨hnot, hfaults, c, hc⟩ := sendMessage_of_no_error xss faults env socket ev s hok
  subst hfaults
  obtain ⟨_, hch, hu, hrooms⟩ := sendMessage_success xss env socket ev s c hnot hc
  refine ⟨?_, ?_, hrooms⟩
  · intro u1 c1
    rw [isMember_congr _ { s.db with channels := touchChannel c env.messageNow s.db.channels }
      hch]
    exact isMember_touchChannel c env.messageNow s.db u1 c1
  · intro u1 c1
    exact listsChannel_congr _ _ hu u1 c1

/-- A `leaveChannel` without `channelId` changes no channel, no user and no
room, whichever store operations fail. -/
theorem leaveChannelUndefined_frame (faults : MemberFaults) (env : Env) (socket : Socket)
    (s : ServerState) :
    (leaveChannelUndefined faults env socket s).1.db.channels = s.db.channels ∧
    (leaveChannelUndefined faults env socket s).1.db.users = s.db.users ∧
    (leaveChannelUndefined faults env socket s).1.rooms = s.rooms := by
  obtain ⟨f1, f2, f3, f4⟩ := faults
  cases f1 <;> cases f3 <;> cases f4 <;> simp [leaveChannelUndefined]

theorem serving_invariant (xss : String → String) (verify : String → Option TokenPayload)
    (w0 w : World)
    (hinit : DistinctIdentities w0 ∧ RosterWithinMembership w0 ∧
      ListsWithinMembership w0.server.db)
    (hserving : Serving xss verify w0 w) :
    DistinctIdentities w ∧ RosterWithinMembership w ∧ ListsWithinMembership w.server.db := by
  induction hserving with
  | start => exact hinit
  | connect w token payload dbReady userFindFails socketId _ hauth hnew ih =>
    obtain ⟨hd, hr, hl⟩ := ih
    cases dbReady
    · simpa [connect, hauth] using ⟨hd, hr, hl⟩
    · cases userFindFails
      · simp only [connect, hauth, Bool.not_true, Bool.false_eq_true, if_false]
        refine ⟨?_, ?_, hl⟩
        · intro a ha b hb hab
          rcases List.mem_append.mp ha with ha | ha <;> rcases List.mem_append.mp hb with hb | hb
          · exact hd a ha b hb hab
          · rw [List.mem_singleton] at hb
            subst hb
            exact absurd hab (hnew a ha)
          · rw [List.mem_singleton] at ha
            subst ha
            exact absurd hab.symm (hnew b hb)
          · rw [List.mem_singleton] at ha hb
            rw [ha, hb]
        · intro sid c hmem
          rw [mem_autoJoin] at hmem
          rcases hmem with hmem | ⟨hsid, usr, husr, hc⟩
          · obtain ⟨conn, hconn, hid, hm⟩ := hr sid c hmem
            exact ⟨conn, List.mem_append_left _ hconn, hid, hm⟩
          · exact ⟨_, List.mem_append_right _ (List.mem_singleton_self _), hsid.symm,
              hl payload.id c ⟨usr, husr, hc⟩⟩
      · simp only [connect, hauth, Bool.not_true, Bool.false_eq_true, if_false, if_true]
        refine ⟨?_, ?_, hl⟩
        · intro a ha
          cases ha
        · intro sid c hmem
          cases hmem
  | event w env socket event _ hsock hok ih =>
    obtain ⟨hd, hr, hl⟩ := ih
    cases event with
    | joinChannel faults channelId =>
      obtain ⟨c, _, hm, hlc, hrooms⟩ := joinChannel_observe faults env socket channelId w.server hok
      refine ⟨hd, ?_, ?_⟩
      · intro sid c1 hmem
        simp only [dispatch] at hmem ⊢
        rw [hrooms, mem_joinRoom] at hmem
        rcases hmem with hmem | hmem
        · obtain ⟨conn, hconn, hid, hmb⟩ := hr sid c1 hmem
          exact ⟨conn, hconn, hid, (hm _ _).mpr (Or.inl hmb)⟩
        · cases hmem
          exact ⟨socket, hsock, rfl, (hm _ _).mpr (Or.inr ⟨rfl, rfl⟩)⟩
      · intro u1 c1 h
        simp only [dispatch] at h ⊢
        rw [hlc] at h
        rw [hm]
        rcases h with h | ⟨h1, h2, _⟩
        · exact Or.inl (hl u1 c1 h)
        · exact Or.inr ⟨h1, h2⟩
    | leaveChannel faults channelId =>
      obtain ⟨c, _, hm, hlc, hrooms⟩ :=
        leaveChannel_observe faults env socket channelId w.server hok
      refine ⟨hd, ?_, ?_⟩
      · intro sid c1 hmem
        simp only [dispatch] at hmem ⊢
        rw [hrooms, mem_leaveRoom] at hmem
        obtain ⟨conn, hconn, hid, hmb⟩ := hr sid c1 hmem.1
        refine ⟨conn, hconn, hid, (hm _ _).mpr ⟨hmb, ?_⟩⟩
        rintro ⟨hu, hc1⟩
        have heq : conn = socket := hd conn hconn socket hsock hu
        apply hmem.2
        rw [← hid, heq, hc1]
      · intro u1 c1 h
        simp only [dispatch] at h ⊢
        rw [hlc] at h
        rw [hm]
        exact ⟨hl u1 c1 h.1, h.2⟩
    | sendMessage faults ev =>
      obtain ⟨hm, hlc, hrooms⟩ := sendMessage_observe xss faults env socket ev w.server hok
      refine ⟨hd, ?_, ?_⟩
      · intro sid c1 hmem
        simp only [dispatch] at hmem ⊢
        rw [hrooms] at hmem
        obtain ⟨conn, hconn, hid, hmb⟩ := hr sid c1 hmem
        exact ⟨conn, hconn, hid, (hm _ _).mpr hmb⟩
      · intro u1 c1 h
        simp only [dispatch] at h ⊢
        rw [hlc] at h
        rw [hm]
        exact hl u1 c1 h
    | leaveChannelUndefined faults =>
      obtain ⟨hch, hu, hrooms⟩ := leaveChannelUndefined_frame faults env socket w.server
      refine ⟨hd, ?_, ?_⟩
      · intro sid c1 hmem
        simp only [dispatch] at hmem ⊢
        rw [hrooms] at hmem
        obtain ⟨conn, hconn, hid, hmb⟩ := hr sid c1 hmem
        exact ⟨conn, hconn, hid, (isMember_congr _ _ hch _ _).mpr hmb⟩
      · intro u1 c1 h
        simp only [dispatch] at h ⊢
        rw [listsChannel_congr _ _ hu] at h
        exact (isMember_congr _ _ hch _ _).mpr (hl u1 c1 h)
    | noPayload =>
      refine ⟨?_, ?_, hl⟩
      · intro a ha
        cases ha
      · intro sid c hmem
        cases hmem
    | disconnect =>
      refine ⟨?_, ?_, hl⟩
      · intro a ha b hb hab
        simp only [dispatch] at ha hb
        exact hd a (List.mem_filter.mp ha).1 b (List.mem_filter.mp hb).1 hab
      · intro sid c1 hmem
        simp only [dispatch, disconnect, List.mem_filter, decide_eq_true_eq] at hmem ⊢
        obtain ⟨conn, hconn, hid, hmb⟩ := hr sid c1 hmem.1
        refine ⟨conn, ⟨hconn, ?_⟩, hid, hmb⟩
        rw [hid]
        exact hmem.2

/-- Claim C14 as amended: starting from a world in which no two open
connections share an identity, every socket in a room belongs to a durable
member and the channels lists only name channels of which the user is a
member, these three facts hold in every world reached by handshakes of
identities without an open connection and by `joinChannel`, `leaveChannel`,
`sendMessage` and `disconnect` events whose handler sends no `error`; in
particular every connection registered in the room of a channel is bound to
an identity in the durable members list of that channel. -/
theorem roster_within_membership (xss : String → String)
    (verify : String → Option TokenPayload) (w0 w : World)
    (hdistinct : DistinctIdentities w0) (hroster : RosterWithinMembership w0)
    (hlists : ListsWithinMembership w0.server.db)
    (hserving : Serving xss verify w0 w) :
    RosterWithinMembership w ∧ DistinctIdentities w ∧ ListsWithinMembership w.server.db :=
  have h := serving_invariant xss verify w0 w ⟨hdistinct, hroster, hlists⟩ hserving
  ⟨h.2.1, h.1, h.2.2⟩

/-- Witness of C14 as amended: user 1, registered and creator of channel 7,
opens the connection 11. -/
theorem roster_within_membership_witness :
    (DistinctIdentities { server := reachedState, conns := [] } ∧
      RosterWithinMembership { server := reachedState, conns := [] } ∧
      ListsWithinMembership reachedState.db ∧
      Serving xssPlain exampleVerify { server := reachedState, conns := [] }
        (connect exampleVerify (some "ann-token") true false 11
          { server := reachedState, conns := [] }).1) ∧
    RosterWithinMembership (connect exampleVerify (some "ann-token") true false 11
      { server := reachedState, conns := [] }).1 :=
  have hreach : Reachable xssPlain reachedState :=
    Reachable.createChannel { db := createUser 1 "ann" emptyStore, rooms := [] }
      noCreateFaults 7 1 (some "general")
      (Reachable.register { db := emptyStore, rooms := [] } 1 "ann" Reachable.empty rfl)
      (by decide) (by decide)
  have hd : DistinctIdentities { server := reachedState, conns := [] } := by
    intro a ha
    cases ha
  have hr : RosterWithinMembership { server := reachedState, conns := [] } := by
    intro sid c h
    simp [reachedState] at h
  have hl : ListsWithinMembership reachedState.db :=
    fun u c h => (reachable_consistent xssPlain reachedState hreach u c).mp h
  have hs : Serving xssPlain exampleVerify { server := reachedState, conns := [] }
      (connect exampleVerify (some "ann-token") true false 11
        { server := reachedState, conns := [] }).1 :=
    Serving.connect _ (some "ann-token") { id := 1, email := "ann@example.org", name := "ann" }
      true false 11 Serving.start rfl (by intro conn h; cases h)
  ⟨⟨hd, hr, hl, hs⟩,
    (roster_within_membership xssPlain exampleVerify _ _ hd hr hl hs).1⟩

end ChatRealtime
